import Mathlib

/-!
Verification of the codexometer refresh pipeline (Supabase edge function
`sentiment-refresh`) against its natural-language specification.

The pipeline source is a Deno/TypeScript edge function.  We give a shallow
embedding: every pure helper becomes a Lean function, the stateful
orchestration becomes explicit state passing, JS numbers holding epoch
seconds become `Int`, float compound scores become `ℚ`, fallible fetches
become `Except`, and JS `undefined`/non-string/non-finite values become
`Option`.  Timestamps are carried as epoch seconds (the source carries ISO
strings derived bijectively from epoch seconds).
-/

namespace Codexometer

/-- Sentiment labels, from the `SentimentLabel` union type. -/
inductive SentimentLabel where
| positive
| neutral
| negative
deriving DecidableEq, Repr

/-- `labelFromScore` (web/lib/sentiment.ts and the edge function): fixed
thresholds at ±0.05.  Compound scores are modelled as rationals. -/
def labelFromScore (score : ℚ) : SentimentLabel :=
if score ≥ 5/100 then SentimentLabel.positive
else if score ≤ -(5/100) then SentimentLabel.negative
else SentimentLabel.neutral

/-- Model of JS `toLowerCase` as a structurally recursive map over the
characters (the built-in `String.toLower` is equivalent but defined by
well-founded recursion, which would block kernel evaluation). -/
def lowerStr (s : String) : String :=
String.mk (s.data.map Char.toLower)

/-- Model of JS `trim`: drop leading and trailing whitespace characters. -/
def trimStr (s : String) : String :=
String.mk (((s.data.dropWhile Char.isWhitespace).reverse.dropWhile Char.isWhitespace).reverse)

/-- `normalizeKeyword`: JS falsy check (`null`/`undefined`/empty string all
map to `null`), then trim, lower-case, and empty-after-trim maps to `null`. -/
def normalizeKeyword (keyword : Option String) : Option String :=
match keyword with
| none => none
| some k =>
  if k = "" then none
  else
    let trimmed := lowerStr (trimStr k)
    if trimmed.length > 0 then some trimmed else none

/-- Character list prefix test used to model JS `String.prototype.includes`. -/
def charsHavePrefix : List Char → List Char → Bool
| _, [] => true
| [], _ :: _ => false
| c :: cs, p :: ps => c = p && charsHavePrefix cs ps

/-- Contiguous-substring test on character lists. -/
def charsHaveSubstr : List Char → List Char → Bool
| [], pat => pat.isEmpty
| c :: cs, pat => charsHavePrefix (c :: cs) pat || charsHaveSubstr cs pat

/-- JS `text.includes(pat)`: contiguous substring containment. -/
def strIncludes (text pat : String) : Bool :=
charsHaveSubstr text.data pat.data

/-- `matchesKeyword`: a `null` keyword matches everything, otherwise
case-insensitive substring containment (`text.toLowerCase().includes(keyword)`;
the keyword is already lower-cased by `normalizeKeyword`). -/
def matchesKeyword (text : String) (keyword : Option String) : Bool :=
match keyword with
| none => true
| some k => strIncludes (lowerStr text) k

/-- The guard `keyword && !matchesKeyword(text, keyword)` that skips an item. -/
def kwBlocks (keyword : Option String) (text : String) : Bool :=
match keyword with
| none => false
| some k => ! strIncludes (lowerStr text) k

/-- `sanitizeText`: non-strings (modelled `none`) and the deletion sentinels
`"[deleted]"`/`"[removed]"` become the empty string. -/
def sanitizeText (value : Option String) : String :=
match value with
| none => ""
| some s => if s = "[deleted]" ∨ s = "[removed]" then "" else s

/-! ## Upstream data model

Listing children as delivered by the upstream API.  `Option` models JS
`undefined`/non-string/non-finite values: `created_utc` is `none` when
`Number(data.created_utc)` is not finite, string fields are `none` when the
field is not a string (`sanitizeText` then yields `""`). -/

/-- Payload of one `t3` listing child (`child.data`). -/
structure RedditPostData where
  id : String
  stickied : Bool
  removed_by_category : Bool
  created_utc : Option Int
  title : Option String
  selftext : Option String
  author : Option String
  score : Option Int
  num_comments : Option Int
  permalink : Option String
deriving DecidableEq, Repr

/-- One element of `listing.data.children`; `data` is `none` when the child
has no `data` object. -/
structure RedditChild where
  kind : String
  data : Option RedditPostData
deriving DecidableEq, Repr

/-- Payload of one `t1` comment child. -/
structure RedditCommentData where
  id : String
  author : Option String
  created_utc : Option Int
  body : Option String
deriving DecidableEq, Repr

/-- One element of `commentsListing[1].data.children`. -/
structure CommentChild where
  kind : String
  data : Option RedditCommentData
deriving DecidableEq, Repr

/-! ## Draft records (in-memory, pre-persistence) -/

/-- `PostRecordDraft` (timestamps as epoch seconds; `raw_json` kept as the
source data). -/
structure PostRecordDraft where
  reddit_id : String
  subreddit_id : String
  title : String
  author : Option String
  posted_at : Int
  score : Option Int
  comment_count : Option Int
  permalink : Option String
  raw_json : RedditPostData
  updated_at : Int
deriving DecidableEq, Repr

/-- `PostSentimentDraft`. -/
structure PostSentimentDraft where
  reddit_id : String
  compound : ℚ
  label : SentimentLabel
  scored_at : Int
  posted_at : Int
  subreddit_id : String
deriving DecidableEq, Repr

/-- `CommentRecordDraft`. -/
structure CommentRecordDraft where
  reddit_id : String
  post_reddit_id : String
  author : Option String
  posted_at : Int
  body : String
  raw_json : RedditCommentData
deriving DecidableEq, Repr

/-- `CommentSentimentDraft`. -/
structure CommentSentimentDraft where
  reddit_id : String
  compound : ℚ
  label : SentimentLabel
  scored_at : Int
  posted_at : Int
  subreddit_id : String
deriving DecidableEq, Repr

/-- `AggregateRow`: the day bucket is carried as the epoch-day number of the
UTC midnight that `new Date(ts).setUTCHours(0,0,0,0)` floors to (the source
then renders it as a `YYYY-MM-DD` string; the two representations are in
bijection). -/
structure AggregateRow where
  subreddit_id : String
  timeframe : String
  bucket_start : Int
  positive : ℕ
  neutral : ℕ
  negative : ℕ
  activity_count : ℕ
deriving DecidableEq, Repr

/-- UTC day bucket of an epoch-seconds timestamp: floor division by 86400. -/
def bucketOf (timestamp : Int) : Int :=
Int.fdiv timestamp 86400

/-- Aggregate map: insertion-ordered association list, mirroring the JS
`Map` keyed by the string `subredditId + ":" + bucketDate` (the pair key is
an injective image of that string key, since `bucketDate` has fixed shape). -/
abbrev AggMap : Type :=
List ((String × Int) × AggregateRow)

/-- Arguments of one `updateAggregate` call. -/
structure UpdateArgs where
  subredditId : String
  timeframe : String
  timestamp : Int
  label : SentimentLabel
deriving DecidableEq, Repr

/-- JS `Map.get`. -/
def aggGet (m : AggMap) (k : String × Int) : Option AggregateRow :=
match m.find? (fun kv => kv.1 = k) with
| some kv => some kv.2
| none => none

/-- JS `Map.set`: replace in place when the key is present, else append. -/
def aggSet (m : AggMap) (k : String × Int) (v : AggregateRow) : AggMap :=
if m.any (fun kv => kv.1 = k) then
  m.map (fun kv => if kv.1 = k then (k, v) else kv)
else m ++ [(k, v)]

/-- `updateAggregate`: fetch or create the row for
`(subreddit, UTC day of timestamp)`, bump the counter of the item's label
and the activity counter, and store the row back. -/
def updateAggregate (aggregates : AggMap) (args : UpdateArgs) : AggMap :=
let bucketDate := bucketOf args.timestamp
let key := (args.subredditId, bucketDate)
let row :=
  match aggGet aggregates key with
  | some r => r
  | none =>
    { subreddit_id := args.subredditId, timeframe := args.timeframe,
      bucket_start := bucketDate, positive := 0, neutral := 0,
      negative := 0, activity_count := 0 }
let row :=
  match args.label with
  | SentimentLabel.positive => { row with positive := row.positive + 1 }
  | SentimentLabel.negative => { row with negative := row.negative + 1 }
  | SentimentLabel.neutral => { row with neutral := row.neutral + 1 }
let row := { row with activity_count := row.activity_count + 1 }
aggSet aggregates key row

/-! ## SubredditProcessor

`processSubreddit` is embedded as explicit state passing: the shared draft
arrays, the shared aggregate map and the shared `errors` array form a
`SubState` threaded through a fold over the listing children.  Outbound
fetches become an environment (`Except` results); the black-box scorer
`SentimentIntensityAnalyzer.polarity_scores(text).compound` becomes a
function `String → ℚ`; the wall clock sampled for `updated_at`/`scored_at`
becomes one run-level instant `now` (its exact value never influences the
control flow). -/

/-- One row of the `subreddits` table. -/
structure SubredditRow where
  id : String
  name : String
deriving DecidableEq, Repr

/-- Per-community processing context. -/
structure SubCtx where
  subreddit_id : String
  subreddit_name : String
  timeframe : String
  sinceEpoch : Int
  keyword : Option String
  score : String → ℚ
  now : Int
  commentsEnv : String → Except String (List CommentChild)

/-- The mutable state shared by the whole run. -/
structure SubState where
  postRecords : List PostRecordDraft
  postSentiments : List PostSentimentDraft
  commentRecords : List CommentRecordDraft
  commentSentiments : List CommentSentimentDraft
  aggregates : AggMap
  errors : List String
deriving Repr

/-- The empty run state. -/
def emptySubState : SubState :=
{ postRecords := [], postSentiments := [], commentRecords := [],
  commentSentiments := [], aggregates := [], errors := [] }

/-- `title`+`"\n"`+`selftext` sanitized and trimmed — `combinedForKeyword`. -/
def combinedTextOf (data : RedditPostData) : String :=
trimStr (sanitizeText data.title ++ "\n" ++ sanitizeText data.selftext)

/-- The post draft built for a kept listing child (`sanitizeText(author) || null`
is the JS falsy-to-null coercion). -/
def mkPostRecord (ctx : SubCtx) (data : RedditPostData) (createdUtc : Int) :
    PostRecordDraft :=
{ reddit_id := data.id,
  subreddit_id := ctx.subreddit_id,
  title := sanitizeText data.title,
  author := if sanitizeText data.author = "" then none else some (sanitizeText data.author),
  posted_at := createdUtc,
  score := data.score,
  comment_count := data.num_comments,
  permalink := data.permalink.map (fun p => "https://reddit.com" ++ p),
  raw_json := data,
  updated_at := ctx.now }

/-- The sentiment draft for a kept post with non-empty combined text. -/
def mkPostSentiment (ctx : SubCtx) (data : RedditPostData) (createdUtc : Int) :
    PostSentimentDraft :=
let compound := ctx.score (combinedTextOf data)
{ reddit_id := data.id, compound := compound,
  label := labelFromScore compound, scored_at := ctx.now,
  posted_at := createdUtc, subreddit_id := ctx.subreddit_id }

/-- The comment draft built for a kept comment child. -/
def mkCommentRecord (postRedditId : String)
    (cd : RedditCommentData) (commentCreated : Int) : CommentRecordDraft :=
{ reddit_id := cd.id, post_reddit_id := postRedditId,
  author := if sanitizeText cd.author = "" then none else some (sanitizeText cd.author),
  posted_at := commentCreated, body := sanitizeText cd.body, raw_json := cd }

/-- The sentiment draft for a kept comment. -/
def mkCommentSentiment (ctx : SubCtx) (cd : RedditCommentData)
    (commentCreated : Int) : CommentSentimentDraft :=
let compound := ctx.score (sanitizeText cd.body)
{ reddit_id := cd.id, compound := compound,
  label := labelFromScore compound, scored_at := ctx.now,
  posted_at := commentCreated, subreddit_id := ctx.subreddit_id }

/-- The warning string pushed when a per-post comment fetch throws. -/
def commentFetchWarning (ctx : SubCtx) (postRedditId msg : String) : String :=
"[" ++ ctx.subreddit_name ++ "] Failed to fetch comments for " ++ postRedditId ++ ": " ++ msg

/-- The warning string pushed when a listing fetch throws. -/
def listingFetchWarning (ctx : SubCtx) (msg : String) : String :=
"[" ++ ctx.subreddit_name ++ "] Failed to fetch posts: " ++ msg

/-- Body of the `for (const commentChild of commentChildren)` loop. -/
def processCommentChild (ctx : SubCtx) (postRedditId : String)
    (st : SubState) (cc : CommentChild) : SubState :=
if cc.kind ≠ "t1" then st
else
  match cc.data with
  | none => st
  | some cd =>
    match cd.created_utc with
    | none => st
    | some commentCreated =>
      if commentCreated < ctx.sinceEpoch then st
      else
        let body := sanitizeText cd.body
        if body = "" then st
        else if kwBlocks ctx.keyword body then st
        else
          let label := labelFromScore (ctx.score body)
          { st with
            commentRecords := st.commentRecords ++ [mkCommentRecord postRedditId cd commentCreated],
            commentSentiments := st.commentSentiments ++ [mkCommentSentiment ctx cd commentCreated],
            aggregates := updateAggregate st.aggregates
              { subredditId := ctx.subreddit_id, timeframe := ctx.timeframe,
                timestamp := commentCreated, label := label } }

/-- Body of the `for (const child of children)` loop: filter, draft the post,
optionally score it, then fetch and process its comments (a comment-fetch
failure is caught, recorded as a warning, and the loop continues). -/
def processChild (ctx : SubCtx) (st : SubState) (child : RedditChild) : SubState :=
match child.data with
| none => st
| some data =>
  if child.kind ≠ "t3" then st
  else if data.stickied || data.removed_by_category then st
  else
    match data.created_utc with
    | none => st
    | some createdUtc =>
      if createdUtc < ctx.sinceEpoch then st
      else
        let combined := combinedTextOf data
        if kwBlocks ctx.keyword combined then st
        else
          let st1 := { st with postRecords := st.postRecords ++ [mkPostRecord ctx data createdUtc] }
          let st2 :=
            if combined.length > 0 then
              let label := labelFromScore (ctx.score combined)
              { st1 with
                postSentiments := st1.postSentiments ++ [mkPostSentiment ctx data createdUtc],
                aggregates := updateAggregate st1.aggregates
                  { subredditId := ctx.subreddit_id, timeframe := ctx.timeframe,
                    timestamp := createdUtc, label := label } }
            else st1
          match ctx.commentsEnv data.id with
          | Except.error msg =>
            { st2 with errors := st2.errors ++ [commentFetchWarning ctx data.id msg] }
          | Except.ok commentChildren =>
            commentChildren.foldl (processCommentChild ctx data.id) st2

/-- `processSubreddit`: a listing fetch failure only records a warning; a
successful listing is folded through `processChild`. -/
def processSubreddit (ctx : SubCtx) (st : SubState)
    (listing : Except String (List RedditChild)) : SubState :=
match listing with
| Except.error msg => { st with errors := st.errors ++ [listingFetchWarning ctx msg] }
| Except.ok children => children.foldl (processChild ctx) st

/-! ## Persistence model

The relational store is modelled as in-memory tables.  Internal surrogate
ids become naturals drawn from per-table counters.  `upsert(..., onConflict
reddit_id)` becomes a fold that updates the matching row in place (keeping
its id and position) or appends a fresh row; `select ... in(...)` becomes a
filter; `delete ... in(...)` becomes a filter with the negated predicate;
the JS `Map` built from the reloaded `(reddit_id, id)` pairs becomes a
last-entry-wins lookup. -/

/-- A persisted `posts` row (columns the pipeline writes). -/
structure PostRow where
  id : ℕ
  reddit_id : String
  subreddit_id : String
  title : String
  author : Option String
  posted_at : Int
  score : Option Int
  comment_count : Option Int
  permalink : Option String
  updated_at : Int
deriving DecidableEq, Repr

/-- A persisted `comments` row. -/
structure CommentRow where
  id : ℕ
  reddit_id : String
  post_id : ℕ
  author : Option String
  posted_at : Int
  body : String
deriving DecidableEq, Repr

/-- A persisted `sentiments` row; exactly one of `post_id`/`comment_id` is
set by the pipeline, matching `source_type`. -/
structure SentimentRow where
  source_type : String
  post_id : Option ℕ
  comment_id : Option ℕ
  compound : ℚ
  label : SentimentLabel
  scored_at : Int
deriving DecidableEq, Repr

/-- The persistent store: the four tables the flush writes, plus the
surrogate-id counters. -/
structure Store where
  posts : List PostRow
  nextPostId : ℕ
  comments : List CommentRow
  nextCommentId : ℕ
  sentiments : List SentimentRow
  daily : List AggregateRow
deriving Repr

/-- One step of the `posts` upsert keyed by `reddit_id`. -/
def applyPostDraft (acc : List PostRow × ℕ) (d : PostRecordDraft) :
    List PostRow × ℕ :=
if acc.1.any (fun r => r.reddit_id = d.reddit_id) then
  (acc.1.map (fun r =>
    if r.reddit_id = d.reddit_id then
      { r with
        subreddit_id := d.subreddit_id
        title := d.title
        author := d.author
        posted_at := d.posted_at
        score := d.score
        comment_count := d.comment_count
        permalink := d.permalink
        updated_at := d.updated_at }
    else r), acc.2)
else
  (acc.1 ++
    [{ id := acc.2
       reddit_id := d.reddit_id
       subreddit_id := d.subreddit_id
       title := d.title
       author := d.author
       posted_at := d.posted_at
       score := d.score
       comment_count := d.comment_count
       permalink := d.permalink
       updated_at := d.updated_at }], acc.2 + 1)

/-- The comment row assembled in `processRefresh` after re-keying a draft to
its parent post's internal id. -/
structure CommentInsert where
  reddit_id : String
  post_id : ℕ
  author : Option String
  posted_at : Int
  body : String
deriving DecidableEq, Repr

/-- One step of the `comments` upsert keyed by `reddit_id`. -/
def applyCommentDraft (acc : List CommentRow × ℕ) (d : CommentInsert) :
    List CommentRow × ℕ :=
if acc.1.any (fun r => r.reddit_id = d.reddit_id) then
  (acc.1.map (fun r =>
    if r.reddit_id = d.reddit_id then
      { r with
        post_id := d.post_id
        author := d.author
        posted_at := d.posted_at
        body := d.body }
    else r), acc.2)
else
  (acc.1 ++
    [{ id := acc.2
       reddit_id := d.reddit_id
       post_id := d.post_id
       author := d.author
       posted_at := d.posted_at
       body := d.body }], acc.2 + 1)

/-- `new Map(pairs)` lookup: the last pair with the key wins. -/
def lookupPairs (ps : List (String × ℕ)) (k : String) : Option ℕ :=
ps.foldl (fun acc p => if p.1 = k then some p.2 else acc) none

/-- `select id, reddit_id ... in (ids)` projected to `(reddit_id, id)` pairs,
for the posts table. -/
def selectPostPairs (rows : List PostRow) (ids : List String) :
    List (String × ℕ) :=
(rows.filter (fun r => r.reddit_id ∈ ids)).map (fun r => (r.reddit_id, r.id))

/-- Same reload for the comments table. -/
def selectCommentPairs (rows : List CommentRow) (ids : List String) :
    List (String × ℕ) :=
(rows.filter (fun r => r.reddit_id ∈ ids)).map (fun r => (r.reddit_id, r.id))

/-- `Array.from(new Set(xs))` — used only for membership, so the model keeps
only the set of elements. -/
def uniqueList {α : Type} [DecidableEq α] (xs : List α) : List α :=
xs.dedup

/-- `delete ... .in("post_id", set)`: does this sentiment row match?  A SQL
`IN` test on a NULL column is false, so rows with no `post_id` never match. -/
def sentimentHitsPostSet (pSet : List ℕ) (r : SentimentRow) : Bool :=
match r.post_id with
| some pid => decide (pid ∈ pSet)
| none => false

/-- `delete ... .in("comment_id", set)` for sentiment rows. -/
def sentimentHitsCommentSet (cSet : List ℕ) (r : SentimentRow) : Bool :=
match r.comment_id with
| some cid => decide (cid ∈ cSet)
| none => false

/-- Natural-key match for the `subreddit_sentiment_daily` upsert
(`onConflict subreddit_id,timeframe,bucket_start`). -/
def aggKeyMatches (a b : AggregateRow) : Bool :=
a.subreddit_id = b.subreddit_id && a.timeframe = b.timeframe &&
  a.bucket_start = b.bucket_start

/-- One step of the aggregate upsert: replace the row with the same natural
key, or append. -/
def applyAggRow (acc : List AggregateRow) (row : AggregateRow) :
    List AggregateRow :=
if acc.any (fun r => aggKeyMatches r row) then
  acc.map (fun r => if aggKeyMatches r row then row else r)
else acc ++ [row]

/-- The posts upsert (`if (allPostRecords.length > 0) upsert(...)`). -/
def upsertPostsStage (ds : List PostRecordDraft) (t : List PostRow × ℕ) :
    List PostRow × ℕ :=
if ds.length > 0 then ds.foldl applyPostDraft t else t

/-- The comments upsert. -/
def upsertCommentsStage (rows : List CommentInsert) (t : List CommentRow × ℕ) :
    List CommentRow × ℕ :=
if rows.length > 0 then rows.foldl applyCommentDraft t else t

/-- Re-key comment drafts to their parent post's internal id, dropping the
ones whose parent did not persist. -/
def rekeyComments (postIdMap : String → Option ℕ)
    (ds : List CommentRecordDraft) : List CommentInsert :=
ds.filterMap (fun d =>
  match postIdMap d.post_reddit_id with
  | none => none
  | some postId => some
    { reddit_id := d.reddit_id
      post_id := postId
      author := d.author
      posted_at := d.posted_at
      body := d.body })

/-- Re-key post sentiment drafts to internal post ids, dropping unresolved
ones. -/
def rekeyPostSentiments (postIdMap : String → Option ℕ)
    (ds : List PostSentimentDraft) : List SentimentRow :=
ds.filterMap (fun d =>
  match postIdMap d.reddit_id with
  | none => none
  | some postId => some
    { source_type := "post"
      post_id := some postId
      comment_id := none
      compound := d.compound
      label := d.label
      scored_at := d.scored_at })

/-- Re-key comment sentiment drafts to internal comment ids. -/
def rekeyCommentSentiments (commentIdMap : String → Option ℕ)
    (ds : List CommentSentimentDraft) : List SentimentRow :=
ds.filterMap (fun d =>
  match commentIdMap d.reddit_id with
  | none => none
  | some commentId => some
    { source_type := "comment"
      post_id := none
      comment_id := some commentId
      compound := d.compound
      label := d.label
      scored_at := d.scored_at })

/-- The guarded sentiment delete by touched post ids. -/
def deleteSentimentsByPost (pSet : List ℕ) (rows : List SentimentRow) :
    List SentimentRow :=
if pSet.length > 0 then
  rows.filter (fun r => ! sentimentHitsPostSet pSet r)
else rows

/-- The guarded sentiment delete by touched comment ids. -/
def deleteSentimentsByComment (cSet : List ℕ) (rows : List SentimentRow) :
    List SentimentRow :=
if cSet.length > 0 then
  rows.filter (fun r => ! sentimentHitsCommentSet cSet r)
else rows

/-- The aggregate replacement: delete every row of the run's timeframe for a
touched community, then upsert the newly computed rows. -/
def replaceAggregates (timeframe : String) (aggregateRows : List AggregateRow)
    (daily : List AggregateRow) : List AggregateRow :=
if aggregateRows.length > 0 then
  let subredditsProcessed : List String :=
    uniqueList (aggregateRows.map (fun r => r.subreddit_id))
  let daily1 := daily.filter (fun r =>
    ! (r.timeframe = timeframe && decide (r.subreddit_id ∈ subredditsProcessed)))
  aggregateRows.foldl applyAggRow daily1
else daily

/-- The counts returned by `processRefresh`. -/
structure ProcessResult where
  postsProcessed : ℕ
  commentsProcessed : ℕ
  sentimentsInserted : ℕ
  aggregatesUpserted : ℕ
  errors : List String
deriving Repr

/-- The persistence flush of `processRefresh`, given all drafts accumulated
across every community: upsert posts, reload ids, re-key and upsert
comments, reload ids, re-key sentiments (dropping unresolved ones), delete
then insert sentiment rows, delete then upsert aggregate rows. -/
def flushDrafts (timeframe : String) (st : SubState) (store : Store) :
    Store × ProcessResult :=
let uniquePostRedditIds := uniqueList (st.postRecords.map (fun r => r.reddit_id))
let postsUp := upsertPostsStage st.postRecords (store.posts, store.nextPostId)
let postIdMap := lookupPairs (selectPostPairs postsUp.1 uniquePostRedditIds)
let commentRows := rekeyComments postIdMap st.commentRecords
let uniqueCommentIds := uniqueList (commentRows.map (fun r => r.reddit_id))
let commentsUp := upsertCommentsStage commentRows (store.comments, store.nextCommentId)
let commentIdMap := lookupPairs (selectCommentPairs commentsUp.1 uniqueCommentIds)
let postSentimentRows := rekeyPostSentiments postIdMap st.postSentiments
let commentSentimentRows := rekeyCommentSentiments commentIdMap st.commentSentiments
let postIdsForCleanup := uniqueList (postSentimentRows.filterMap (fun r => r.post_id))
let commentIdsForCleanup := uniqueList (commentSentimentRows.filterMap (fun r => r.comment_id))
let sentiments2 :=
  deleteSentimentsByComment commentIdsForCleanup
    (deleteSentimentsByPost postIdsForCleanup store.sentiments)
let sentiments3 := sentiments2 ++ postSentimentRows ++ commentSentimentRows
let aggregateRows := st.aggregates.map (fun kv => kv.2)
let daily2 := replaceAggregates timeframe aggregateRows store.daily
({ posts := postsUp.1, nextPostId := postsUp.2,
   comments := commentsUp.1, nextCommentId := commentsUp.2,
   sentiments := sentiments3, daily := daily2 },
 { postsProcessed := st.postRecords.length,
   commentsProcessed := commentRows.length,
   sentimentsInserted := postSentimentRows.length + commentSentimentRows.length,
   aggregatesUpserted := aggregateRows.length,
   errors := st.errors })

/-- The posts table and counter after the posts upsert of a flush. -/
def postsUpOf (D : SubState) (s : Store) : List PostRow × ℕ :=
upsertPostsStage D.postRecords (s.posts, s.nextPostId)

/-- The reloaded reddit-id-to-internal-id map for posts. -/
def postMapOf (D : SubState) (s : Store) : String → Option ℕ :=
lookupPairs (selectPostPairs (postsUpOf D s).1
  (uniqueList (D.postRecords.map (fun r => r.reddit_id))))

/-- The re-keyed comment rows of a flush. -/
def commentRowsOf (D : SubState) (s : Store) : List CommentInsert :=
rekeyComments (postMapOf D s) D.commentRecords

/-- The comments table and counter after the comments upsert of a flush. -/
def commentsUpOf (D : SubState) (s : Store) : List CommentRow × ℕ :=
upsertCommentsStage (commentRowsOf D s) (s.comments, s.nextCommentId)

/-- The reloaded reddit-id-to-internal-id map for comments. -/
def commentMapOf (D : SubState) (s : Store) : String → Option ℕ :=
lookupPairs (selectCommentPairs (commentsUpOf D s).1
  (uniqueList ((commentRowsOf D s).map (fun r => r.reddit_id))))

/-- The post sentiment rows inserted by a flush. -/
def pRowsOf (D : SubState) (s : Store) : List SentimentRow :=
rekeyPostSentiments (postMapOf D s) D.postSentiments

/-- The comment sentiment rows inserted by a flush. -/
def cRowsOf (D : SubState) (s : Store) : List SentimentRow :=
rekeyCommentSentiments (commentMapOf D s) D.commentSentiments

/-- The touched-post cleanup set of a flush. -/
def pSetOf (D : SubState) (s : Store) : List ℕ :=
uniqueList ((pRowsOf D s).filterMap (fun r => r.post_id))

/-- The touched-comment cleanup set of a flush. -/
def cSetOf (D : SubState) (s : Store) : List ℕ :=
uniqueList ((cRowsOf D s).filterMap (fun r => r.comment_id))

/-! ## processRefresh -/

/-- `TIMEFRAME_CONFIG` as hours per supported timeframe key. -/
def timeframeHours (tf : String) : Option ℕ :=
if tf = "24h" then some 24
else if tf = "7d" then some (7 * 24)
else if tf = "30d" then some (30 * 24)
else none

/-- `Object.prototype.hasOwnProperty.call(TIMEFRAME_CONFIG, timeframe)`. -/
def timeframeSupported (tf : String) : Bool :=
(timeframeHours tf).isSome

/-- The external world of one run: the `subreddits` table load, the listing
and comments endpoints, the black-box scorer, and the run's clock. -/
structure RunEnv where
  subredditsLoad : Except String (List SubredditRow)
  listing : String → Except String (List RedditChild)
  comments : String → Except String (List CommentChild)
  score : String → ℚ
  now : Int

/-- Per-community context assembled by `processRefresh`. -/
def mkCtx (env : RunEnv) (timeframe : String) (sinceEpoch : Int)
    (keyword : Option String) (sub : SubredditRow) : SubCtx :=
{ subreddit_id := sub.id, subreddit_name := sub.name, timeframe := timeframe,
  sinceEpoch := sinceEpoch, keyword := keyword, score := env.score,
  now := env.now, commentsEnv := env.comments }

/-- The fetching/scoring phase: fold `processSubreddit` over the configured
communities, starting from the empty shared state. -/
def collectDrafts (env : RunEnv) (timeframe : String) (sinceEpoch : Int)
    (keyword : Option String) (subs : List SubredditRow) : SubState :=
subs.foldl
  (fun st sub =>
    processSubreddit (mkCtx env timeframe sinceEpoch keyword sub) st
      (env.listing sub.name))
  emptySubState

/-- `processRefresh`: compute the cutoff, load the communities, collect all
drafts, then flush.  Fatal errors (`throw` in the source) are `Except.error`;
the `timeframeHours` miss cannot occur after the handler's validation. -/
def processRefresh (env : RunEnv) (timeframe : String)
    (keyword : Option String) (store : Store) :
    Except String (Store × ProcessResult) :=
match timeframeHours timeframe with
| none => Except.error "Unsupported timeframe."
| some hours =>
  let sinceEpoch := env.now - hours * 3600
  match env.subredditsLoad with
  | Except.error msg => Except.error ("Failed to load subreddits: " ++ msg)
  | Except.ok subs =>
    if subs.length = 0 then
      Except.error "No subreddits configured. Seed the table first."
    else
      Except.ok (flushDrafts timeframe (collectDrafts env timeframe sinceEpoch keyword subs) store)

/-! ## TokenManager -/

/-- A JS env-var credential: set and non-empty (empty strings are falsy). -/
def credPresent (v : Option String) : Bool :=
match v with
| none => false
| some s => s ≠ ""

/-- Credential configuration plus the upstream token endpoint (what the
`fetch` of `https://www.reddit.com/api/v1/access_token` answers per grant
type: a token, or the composed failure message). -/
structure CredEnv where
  clientId : Option String
  clientSecret : Option String
  username : Option String
  password : Option String
  tokenEndpoint : String → Except String String

/-- `requestRedditAccessToken`: client credentials are checked before any
request; a password grant additionally requires username and password. -/
def requestRedditAccessToken (env : CredEnv) (grantType : String) :
    Except String String :=
if ! (credPresent env.clientId && credPresent env.clientSecret) then
  Except.error "Reddit client credentials are not configured."
else if grantType = "password" && ! (credPresent env.username && credPresent env.password) then
  Except.error "Reddit username/password are required for password grant."
else env.tokenEndpoint grantType

/-- `fetchRedditAccessToken`: password grant first when user credentials are
configured, falling back to client credentials only when the failure message
mentions `unauthorized_client`. -/
def fetchRedditAccessToken (env : CredEnv) : Except String String :=
if credPresent env.username && credPresent env.password then
  match requestRedditAccessToken env "password" with
  | Except.ok tok => Except.ok tok
  | Except.error message =>
    if ! strIncludes message "unauthorized_client" then Except.error message
    else requestRedditAccessToken env "client_credentials"
else requestRedditAccessToken env "client_credentials"

/-! ## Serve handler (job lifecycle) -/

/-- The trigger payload (`none` fields model absent JSON fields). -/
structure RefreshPayload where
  timeframe : Option String
  keyword : Option String
deriving DecidableEq, Repr

/-- `errors.flatten(" | ")`. -/
def joinWarnings : List String → String
| [] => ""
| [x] => x
| x :: y :: xs => x ++ " | " ++ joinWarnings (y :: xs)

/-- The full environment a handler invocation sees. -/
structure ServeEnv where
  payload : Option RefreshPayload
  creds : CredEnv
  supabaseConfigured : Bool
  run : RunEnv
  store : Store

/-- Observable outcome of one handler invocation: the HTTP status, whether a
`refresh_jobs` row was inserted, the terminal `status`/`error` recorded on
that row, and the `status` field of the JSON response body. -/
structure ServeOutcome where
  httpStatus : ℕ
  jobInserted : Bool
  recordedStatus : Option String
  recordedError : Option String
  responseStatus : Option String
  counts : Option ProcessResult

/-- The `serve` handler: validate the timeframe (defaulting to `"7d"`),
normalize the keyword, create the job row, then obtain a token and run
`processRefresh`; a caught error marks the job `failed`, a normal completion
records `completed` on the job row and reports `completed` or
`completed_with_warnings` to the caller.  (The job-row insert itself is
modelled as succeeding; when it fails the source throws with `jobId` still
null and no terminal update happens.) -/
def serveHandler (env : ServeEnv) : ServeOutcome :=
match env.payload with
| none =>
  { httpStatus := 400, jobInserted := false, recordedStatus := none,
    recordedError := none, responseStatus := none, counts := none }
| some payload =>
  let timeframe := payload.timeframe.getD "7d"
  if ! timeframeSupported timeframe then
    { httpStatus := 400, jobInserted := false, recordedStatus := none,
      recordedError := none, responseStatus := none, counts := none }
  else
    let keyword := normalizeKeyword payload.keyword
    if ! env.supabaseConfigured then
      { httpStatus := 500, jobInserted := false, recordedStatus := none,
        recordedError := none, responseStatus := none, counts := none }
    else
      match fetchRedditAccessToken env.creds with
      | Except.error msg =>
        { httpStatus := 500, jobInserted := true,
          recordedStatus := some "failed", recordedError := some msg,
          responseStatus := none, counts := none }
      | Except.ok _tok =>
        match processRefresh env.run timeframe keyword env.store with
        | Except.error msg =>
          { httpStatus := 500, jobInserted := true,
            recordedStatus := some "failed", recordedError := some msg,
            responseStatus := none, counts := none }
        | Except.ok (_store, result) =>
          { httpStatus := 200, jobInserted := true,
            recordedStatus := some "completed",
            recordedError :=
              if result.errors.length > 0 then some (joinWarnings result.errors) else none,
            responseStatus :=
              some (if result.errors.length > 0 then "completed_with_warnings" else "completed"),
            counts := some result }

/-! ## RateLimitedClient (`fetchJson`) -/

/-- An upstream HTTP response. -/
structure HttpResponse where
  status : ℕ
  body : String
deriving DecidableEq, Repr

/-- Observable side effects of `fetchJson`, in order: issuing the request of
a given attempt number, refreshing the bearer token, and sleeping. -/
inductive FetchEv where
| request (attempt : ℕ)
| refreshTok
| backoff (ms : ℕ)
deriving DecidableEq, Repr

/-- `RATE_LIMIT_MS`. -/
def RATE_LIMIT_MS : ℕ := 900

/-- `fetchJson`: at most three attempts; 401 refreshes the token and retries
at once; 429/403 sleeps `RATE_LIMIT_MS * attempt` and retries; any other
non-2xx fails with the response body; 2xx succeeds with the body.  The
wire is an environment mapping the attempt number to its response. -/
def fetchJson (resp : ℕ → HttpResponse) (url : String) (attempt : ℕ) :
    Except String String × List FetchEv :=
let r := resp attempt
if _h401 : r.status = 401 ∧ attempt < 3 then
  let rest := fetchJson resp url (attempt + 1)
  (rest.1, FetchEv.request attempt :: FetchEv.refreshTok :: rest.2)
else if _hrate : (r.status = 429 ∨ r.status = 403) ∧ attempt < 3 then
  let rest := fetchJson resp url (attempt + 1)
  (rest.1, FetchEv.request attempt :: FetchEv.backoff (RATE_LIMIT_MS * attempt) :: rest.2)
else if ! (200 ≤ r.status && r.status < 300) then
  (Except.error ("Reddit request failed (" ++ toString r.status ++ "): " ++ url ++ " :: " ++ r.body),
   [FetchEv.request attempt])
else (Except.ok r.body, [FetchEv.request attempt])
termination_by 3 - attempt
decreasing_by
· omega
· omega

/-! ## Web route defaulting (`web/app/api/refresh/route.ts`) -/

/-- `body.timeframe ?? "7d"` in the Next.js proxy route. -/
def routeTimeframe (t : Option String) : String :=
t.getD "7d"

/-- `body.keyword?.trim() || null` in the Next.js proxy route. -/
def routeKeyword (k : Option String) : Option String :=
match k with
| none => none
| some s => if trimStr s = "" then none else some (trimStr s)

/-! ## Derived predicates used by the claims -/

/-- The code's condition for a `t3` child (with `data` present and a finite
creation time `t`) to contribute a post draft record. -/
def keepPostRecordCond (since : Int) (kw : Option String)
    (data : RedditPostData) (t : Int) : Bool :=
!data.stickied && !data.removed_by_category && !decide (t < since) &&
  !kwBlocks kw (combinedTextOf data)

/-- The ContentFilter as the specification words it for a post: not
stickied, not removed-by-category, in window, non-empty text after sentinel
stripping, and keyword containment on title+selftext. -/
def specKeepsPost (since : Int) (kw : Option String)
    (data : RedditPostData) (t : Int) : Bool :=
!data.stickied && !data.removed_by_category && decide (since ≤ t) &&
  !decide (combinedTextOf data = "") && matchesKeyword (combinedTextOf data) kw

/-- The ContentFilter as the specification words it for a comment (comments
carry no stickied/removed flags in the upstream envelope of §6): in window,
non-empty body after sentinel stripping, and keyword containment. -/
def specKeepsComment (since : Int) (kw : Option String)
    (cd : RedditCommentData) (t : Int) : Bool :=
decide (since ≤ t) && !decide (sanitizeText cd.body = "") &&
  matchesKeyword (sanitizeText cd.body) kw

/-- The post sentiments a single listing child contributes, written without
any reference to the comments environment. -/
def postSentSeg (subId subName timeframe : String) (sinceEpoch : Int)
    (keyword : Option String) (score : String → ℚ) (now : Int)
    (child : RedditChild) : List PostSentimentDraft :=
match child.data with
| none => []
| some data =>
  if child.kind ≠ "t3" then []
  else if data.stickied || data.removed_by_category then []
  else
    match data.created_utc with
    | none => []
    | some createdUtc =>
      if createdUtc < sinceEpoch then []
      else
        let combined := combinedTextOf data
        if kwBlocks keyword combined then []
        else if combined.length > 0 then
          [mkPostSentiment
            { subreddit_id := subId, subreddit_name := subName,
              timeframe := timeframe, sinceEpoch := sinceEpoch,
              keyword := keyword, score := score, now := now,
              commentsEnv := fun _ => Except.ok [] } data createdUtc]
        else []

/-- The post draft records a single listing child contributes. -/
def recordSeg (ctx : SubCtx) (child : RedditChild) : List PostRecordDraft :=
match child.data with
| none => []
| some data =>
  if child.kind ≠ "t3" then []
  else if data.stickied || data.removed_by_category then []
  else
    match data.created_utc with
    | none => []
    | some t =>
      if t < ctx.sinceEpoch then []
      else if kwBlocks ctx.keyword (combinedTextOf data) then []
      else [mkPostRecord ctx data t]

/-- The comment draft records a single comment child contributes. -/
def commentRecSeg (ctx : SubCtx) (pid : String) (cc : CommentChild) :
    List CommentRecordDraft :=
if cc.kind ≠ "t1" then []
else
  match cc.data with
  | none => []
  | some cd =>
    match cd.created_utc with
    | none => []
    | some t =>
      if t < ctx.sinceEpoch then []
      else if sanitizeText cd.body = "" then []
      else if kwBlocks ctx.keyword (sanitizeText cd.body) then []
      else [mkCommentRecord pid cd t]

/-- The comment sentiment drafts a single comment child contributes. -/
def commentSentSeg (ctx : SubCtx) (cc : CommentChild) :
    List CommentSentimentDraft :=
if cc.kind ≠ "t1" then []
else
  match cc.data with
  | none => []
  | some cd =>
    match cd.created_utc with
    | none => []
    | some t =>
      if t < ctx.sinceEpoch then []
      else if sanitizeText cd.body = "" then []
      else if kwBlocks ctx.keyword (sanitizeText cd.body) then []
      else [mkCommentSentiment ctx cd t]

/-- The comment sentiment drafts a single listing child contributes through
its whole comment pass. -/
def childCommentSentSeg (ctx : SubCtx) (child : RedditChild) :
    List CommentSentimentDraft :=
match child.data with
| none => []
| some data =>
  if child.kind ≠ "t3" then []
  else if data.stickied || data.removed_by_category then []
  else
    match data.created_utc with
    | none => []
    | some t =>
      if t < ctx.sinceEpoch then []
      else if kwBlocks ctx.keyword (combinedTextOf data) then []
      else
        match ctx.commentsEnv data.id with
        | Except.error _ => []
        | Except.ok cs => (cs.map (commentSentSeg ctx)).flatten

/-- The warnings a single listing child contributes. -/
def errSeg (ctx : SubCtx) (child : RedditChild) : List String :=
match child.data with
| none => []
| some data =>
  if child.kind ≠ "t3" then []
  else if data.stickied || data.removed_by_category then []
  else
    match data.created_utc with
    | none => []
    | some t =>
      if t < ctx.sinceEpoch then []
      else if kwBlocks ctx.keyword (combinedTextOf data) then []
      else
        match ctx.commentsEnv data.id with
        | Except.error msg => [commentFetchWarning ctx data.id msg]
        | Except.ok _ => []

/-- State of the post loop after drafting and (maybe) scoring one kept
child, before its comment fetch. -/
def postPhase (ctx : SubCtx) (st : SubState) (data : RedditPostData)
    (createdUtc : Int) : SubState :=
let st1 := { st with postRecords := st.postRecords ++ [mkPostRecord ctx data createdUtc] }
if (combinedTextOf data).length > 0 then
  let label := labelFromScore (ctx.score (combinedTextOf data))
  { st1 with
    postSentiments := st1.postSentiments ++ [mkPostSentiment ctx data createdUtc]
    aggregates := updateAggregate st1.aggregates
      { subredditId := ctx.subreddit_id, timeframe := ctx.timeframe,
        timestamp := createdUtc, label := label } }
else st1

/-- Number of HTTP requests issued in a `fetchJson` event trace. -/
def countRequests (evs : List FetchEv) : ℕ :=
(evs.filter (fun e =>
  match e with
  | FetchEv.request _ => true
  | _ => false)).length

/-- Natural keys of the posts table: `(reddit_id, id)` pairs in row order. -/
def projPosts (rows : List PostRow) : List (String × ℕ) :=
rows.map (fun r => (r.reddit_id, r.id))

/-- Natural keys of the comments table. -/
def projComments (rows : List CommentRow) : List (String × ℕ) :=
rows.map (fun r => (r.reddit_id, r.id))

/-- Well-formedness of the in-run aggregate map: keys are distinct and each
row's identifying fields agree with its key, with the run's timeframe. -/
def AggWF (tf : String) (m : AggMap) : Prop :=
(m.map (fun kv => kv.1)).Nodup ∧
  ∀ kv ∈ m, kv.2.subreddit_id = kv.1.1 ∧ kv.2.bucket_start = kv.1.2 ∧
    kv.2.timeframe = tf

/-- A sequence of `updateAggregate` calls applied to the empty map. -/
def applyUpdates (updates : List UpdateArgs) : AggMap :=
updates.foldl updateAggregate []

/-- A concrete two-call `updateAggregate` sequence hitting one bucket. -/
def c9updates : List UpdateArgs :=
[{ subredditId := "s1", timeframe := "7d", timestamp := 10,
   label := SentimentLabel.positive },
 { subredditId := "s1", timeframe := "7d", timestamp := 20,
   label := SentimentLabel.negative }]

/-- The aggregate entry those two calls produce. -/
def c9kv : (String × Int) × AggregateRow :=
(("s1", (0:Int)),
 { subreddit_id := "s1", timeframe := "7d", bucket_start := 0,
   positive := 1, neutral := 0, negative := 1, activity_count := 2 })

/-! ## Concrete instances used by witnesses and counterexamples -/

/-- A concrete per-community context with cutoff 100 and no keyword. -/
def ctx0 : SubCtx :=
{ subreddit_id := "s1", subreddit_name := "codex", timeframe := "7d",
  sinceEpoch := 100, keyword := none, score := fun _ => 0, now := 1000,
  commentsEnv := fun _ => Except.ok [] }

/-- A plain listing post created at time `t`. -/
def postAt (t : Int) : RedditPostData :=
{ id := "p1", stickied := false, removed_by_category := false,
  created_utc := some t, title := some "hello", selftext := some "world",
  author := some "al", score := some 1, num_comments := some 0,
  permalink := some "/x" }

/-- The listing child wrapping `postAt t`. -/
def childAt (t : Int) : RedditChild :=
{ kind := "t3", data := some (postAt t) }

/-- A plain comment created at time `t`. -/
def commentAt (t : Int) : RedditCommentData :=
{ id := "c1", author := some "b", created_utc := some t, body := some "nice" }

/-- The comment child wrapping `commentAt t`. -/
def cchildAt (t : Int) : CommentChild :=
{ kind := "t1", data := some (commentAt t) }

/-- An empty store. -/
def store0 : Store :=
{ posts := [], nextPostId := 1, comments := [], nextCommentId := 1,
  sentiments := [], daily := [] }

/-- Configured client credentials with a token endpoint that accepts any
grant. -/
def credsOk : CredEnv :=
{ clientId := some "cid", clientSecret := some "sec", username := none,
  password := none, tokenEndpoint := fun _ => Except.ok "tok" }

/-- No Reddit credentials configured at all. -/
def credsNone : CredEnv :=
{ clientId := none, clientSecret := none, username := none,
  password := none, tokenEndpoint := fun _ => Except.ok "tok" }

/-- A run environment with one community whose listing is empty. -/
def runEnvEmpty : RunEnv :=
{ subredditsLoad := Except.ok [{ id := "s1", name := "codex" }],
  listing := fun _ => Except.ok [],
  comments := fun _ => Except.ok [],
  score := fun _ => 0,
  now := 1000000 }

/-- A run environment whose single listing fetch throws: the run finishes
with one warning and full persistence success. -/
def runEnvWarn : RunEnv :=
{ subredditsLoad := Except.ok [{ id := "s1", name := "codex" }],
  listing := fun _ => Except.error "boom",
  comments := fun _ => Except.ok [],
  score := fun _ => 0,
  now := 1000000 }

/-- A fallback result value (only used to totalize projections). -/
def emptyResult : ProcessResult :=
{ postsProcessed := 0, commentsProcessed := 0, sentimentsInserted := 0,
  aggregatesUpserted := 0, errors := [] }

/-- Handler environment of a run that completes with one warning. -/
def envWarn : ServeEnv :=
{ payload := some { timeframe := some "7d", keyword := none },
  creds := credsOk, supabaseConfigured := true, run := runEnvWarn,
  store := store0 }

/-- Handler environment with a valid payload but no Reddit credentials. -/
def envNoCreds : ServeEnv :=
{ payload := some { timeframe := some "7d", keyword := none },
  creds := credsNone, supabaseConfigured := true, run := runEnvEmpty,
  store := store0 }

/-- Handler environment with an unsupported timeframe value. -/
def envBadTf : ServeEnv :=
{ payload := some { timeframe := some "48h", keyword := none },
  creds := credsOk, supabaseConfigured := true, run := runEnvEmpty,
  store := store0 }

/-- Handler environment whose payload omits the timeframe field. -/
def envDefaultTf : ServeEnv :=
{ payload := some { timeframe := none, keyword := some "  " },
  creds := credsOk, supabaseConfigured := true, run := runEnvEmpty,
  store := store0 }

/-- The store/result pair produced by the warning run. -/
def c1pair : Store × ProcessResult :=
match processRefresh runEnvWarn "7d" none store0 with
| Except.ok pr => pr
| Except.error _ => (store0, emptyResult)

/-- A run environment with one community, one in-window post and one
in-window comment. -/
def runEnvC3 : RunEnv :=
{ subredditsLoad := Except.ok [{ id := "s1", name := "codex" }],
  listing := fun _ => Except.ok [childAt 950000],
  comments := fun _ => Except.ok [cchildAt 960000],
  score := fun _ => 1/10,
  now := 1000000 }

/-- First run of `runEnvC3` from the empty store. -/
def c3run1 : Store × ProcessResult :=
match processRefresh runEnvC3 "24h" none store0 with
| Except.ok pr => pr
| Except.error _ => (store0, emptyResult)

/-- Store after the first run. -/
def c3s1 : Store :=
c3run1.1

/-- Counts of the first run. -/
def c3r1 : ProcessResult :=
c3run1.2

/-- Second run of `runEnvC3`, from the first run's store. -/
def c3run2 : Store × ProcessResult :=
match processRefresh runEnvC3 "24h" none c3s1 with
| Except.ok pr => pr
| Except.error _ => (store0, emptyResult)

/-- Store after the second run. -/
def c3s2 : Store :=
c3run2.1

/-- Counts of the second run. -/
def c3r2 : ProcessResult :=
c3run2.2

/-- A wire that answers 401, then 429, then 200. -/
def resp401then429 : ℕ → HttpResponse :=
fun n =>
  if n = 1 then { status := 401, body := "unauthorized" }
  else if n = 2 then { status := 429, body := "slow down" }
  else { status := 200, body := "okbody" }

/-- A wire that always answers 500. -/
def resp500 : ℕ → HttpResponse :=
fun _ => { status := 500, body := "oops" }

/-- A wire that always answers 200. -/
def respOk : ℕ → HttpResponse :=
fun _ => { status := 200, body := "okbody" }

/-- A non-stickied, non-removed, in-window post whose visible text is empty
after sentinel stripping (`title` is the `"[deleted]"` sentinel). -/
def dataEmptyText : RedditPostData :=
{ id := "p2", stickied := false, removed_by_category := false,
  created_utc := some 200, title := some "[deleted]", selftext := some "",
  author := none, score := none, num_comments := none, permalink := none }

/-- Listing child wrapping `dataEmptyText`. -/
def childEmptyText : RedditChild :=
{ kind := "t3", data := some dataEmptyText }

/-- A plain in-window post with a given id. -/
def postIdAt (i : String) (t : Int) : RedditPostData :=
{ id := i, stickied := false, removed_by_category := false,
  created_utc := some t, title := some "hello", selftext := some "world",
  author := some "al", score := some 1, num_comments := some 1,
  permalink := some "/x" }

/-- The listing child wrapping `postIdAt i t`. -/
def childIdAt (i : String) (t : Int) : RedditChild :=
{ kind := "t3", data := some (postIdAt i t) }

/-- A comments endpoint that throws for post `"p2"` and returns one
in-window comment for every other post. -/
def commentsEnvC2 : String → Except String (List CommentChild) :=
fun pid => if pid = "p2" then Except.error "boom" else Except.ok [cchildAt 150]

/-- Context for the three-post partial-failure scenario. -/
def ctxC2 : SubCtx :=
{ subreddit_id := "s1", subreddit_name := "codex", timeframe := "7d",
  sinceEpoch := 100, keyword := none, score := fun _ => 1/10, now := 1000,
  commentsEnv := commentsEnvC2 }

/-- A three-post batch whose middle post loses its comment fetch. -/
def childrenC2 : List RedditChild :=
[childIdAt "p1" 200, childIdAt "p2" 200, childIdAt "p3" 200]

/-- `ctx0` with a comments endpoint that returns one in-window comment. -/
def ctxC6 : SubCtx :=
{ subreddit_id := "s1", subreddit_name := "codex", timeframe := "7d",
  sinceEpoch := 100, keyword := none, score := fun _ => 0, now := 1000,
  commentsEnv := fun _ => Except.ok [cchildAt 150] }

/-! # Theorems -/

/-- C8: for every compound score in [-1,1] the label is positive iff the
score is at least 0.05, negative iff it is at most -0.05, and neutral
strictly in between; in particular `label(0.05)=positive`,
`label(-0.05)=negative`, `label(0.049999)=neutral`,
`label(-0.049999)=neutral`. -/
theorem claim_C8_label_thresholds (c : ℚ) (_h1 : -1 ≤ c) (_h2 : c ≤ 1) :
    (c ≥ 5/100 → labelFromScore c = SentimentLabel.positive) ∧
    (c ≤ -(5/100) → labelFromScore c = SentimentLabel.negative) ∧
    (-(5/100) < c → c < 5/100 → labelFromScore c = SentimentLabel.neutral) ∧
    labelFromScore (5/100) = SentimentLabel.positive ∧
    labelFromScore (-(5/100)) = SentimentLabel.negative ∧
    labelFromScore (49999/1000000) = SentimentLabel.neutral ∧
    labelFromScore (-(49999/1000000)) = SentimentLabel.neutral := by
  refine ⟨?_, ?_, ?_, ?_, ?_, ?_, ?_⟩
  · intro h
    unfold labelFromScore
    rw [if_pos h]
  · intro h
    unfold labelFromScore
    rw [if_neg (by linarith), if_pos h]
  · intro hlo hhi
    unfold labelFromScore
    rw [if_neg (by linarith), if_neg (by linarith)]
  · unfold labelFromScore
    norm_num
  · unfold labelFromScore
    norm_num
  · unfold labelFromScore
    norm_num
  · unfold labelFromScore
    norm_num

/-- Witness for C8 at the concrete score 0. -/
theorem claim_C8_label_thresholds_witness :
    ((-1:ℚ) ≤ 0 ∧ (0:ℚ) ≤ 1) ∧ labelFromScore 0 = SentimentLabel.neutral := by
  refine ⟨⟨by norm_num, by norm_num⟩, ?_⟩
  exact (claim_C8_label_thresholds 0 (by norm_num) (by norm_num)).2.2.1
    (by norm_num) (by norm_num)

/-- `aggGet` returns a value stored in the map under the given key. -/
theorem aggGet_mem {m : AggMap} {k : String × Int} {r : AggregateRow}
    (h : aggGet m k = some r) : (k, r) ∈ m := by
  unfold aggGet at h
  cases hf : m.find? (fun kv => kv.1 = k) with
  | none => rw [hf] at h; cases h
  | some kv =>
    rw [hf] at h
    cases h
    have hmem := List.mem_of_find?_eq_some hf
    have hkey := List.find?_some hf
    have : kv.1 = k := by simpa using hkey
    have : (kv.1, kv.2) = (k, kv.2) := by rw [this]
    simpa [← this] using hmem

/-- Every entry of `aggSet m k v` is either `(k, v)` or an entry of `m`. -/
theorem mem_aggSet {m : AggMap} {k : String × Int} {v : AggregateRow}
    {kv : (String × Int) × AggregateRow} (h : kv ∈ aggSet m k v) :
    kv = (k, v) ∨ kv ∈ m := by
  unfold aggSet at h
  split at h
  · rcases List.mem_map.mp h with ⟨kv0, hkv0, heq⟩
    by_cases hk : kv0.1 = k
    · left
      rw [if_pos hk] at heq
      exact heq.symm
    · right
      rw [if_neg hk] at heq
      rw [← heq]
      exact hkv0
  · rcases List.mem_append.mp h with h' | h'
    · right; exact h'
    · left; simpa using h'

/-- One `updateAggregate` call preserves the counter-sum invariant. -/
theorem updateAggregate_sum {m : AggMap} {u : UpdateArgs}
    (H : ∀ kv ∈ m, kv.2.positive + kv.2.neutral + kv.2.negative = kv.2.activity_count) :
    ∀ kv ∈ updateAggregate m u,
      kv.2.positive + kv.2.neutral + kv.2.negative = kv.2.activity_count := by
  intro kv hkv
  unfold updateAggregate at hkv
  rcases mem_aggSet hkv with heq | hold
  · subst heq
    cases hget : aggGet m (u.subredditId, bucketOf u.timestamp) with
    | some r =>
      have hr := H _ (aggGet_mem hget)
      simp only [hget] at *
      cases u.label <;> simp_all <;> omega
    | none =>
      simp only [hget] at *
      cases u.label <;> simp_all
  · exact H _ hold

/-- C9: after any sequence of `updateAggregate` calls starting from the
empty map, every aggregate row satisfies
positive + neutral + negative = activity_count. -/
theorem claim_C9_aggregate_sum_invariant (updates : List UpdateArgs)
    (kv : (String × Int) × AggregateRow) (h : kv ∈ applyUpdates updates) :
    kv.2.positive + kv.2.neutral + kv.2.negative = kv.2.activity_count := by
  suffices H : ∀ (us : List UpdateArgs) (m : AggMap),
      (∀ kv ∈ m, kv.2.positive + kv.2.neutral + kv.2.negative = kv.2.activity_count) →
      ∀ kv ∈ us.foldl updateAggregate m,
        kv.2.positive + kv.2.neutral + kv.2.negative = kv.2.activity_count by
    exact H updates [] (by intro kv h; cases h) kv h
  intro us
  induction us with
  | nil => intro m hm kv hkv; exact hm kv hkv
  | cons u us ih =>
    intro m hm kv hkv
    exact ih (updateAggregate m u) (updateAggregate_sum hm) kv hkv

/-- Witness for C9 on a two-call sequence hitting the same bucket. -/
theorem claim_C9_aggregate_sum_invariant_witness :
    c9kv ∈ applyUpdates c9updates ∧
    c9kv.2.positive + c9kv.2.neutral + c9kv.2.negative = c9kv.2.activity_count := by
  constructor
  · decide
  · exact claim_C9_aggregate_sum_invariant c9updates c9kv (by decide)

/-- Processing one comment child never touches the post-record drafts. -/
theorem pcc_postRecords (ctx : SubCtx) (pid : String) (st : SubState)
    (cc : CommentChild) :
    (processCommentChild ctx pid st cc).postRecords = st.postRecords := by
  unfold processCommentChild
  dsimp only
  repeat' split
  all_goals rfl

/-- Processing one comment child never touches the post-sentiment drafts. -/
theorem pcc_postSentiments (ctx : SubCtx) (pid : String) (st : SubState)
    (cc : CommentChild) :
    (processCommentChild ctx pid st cc).postSentiments = st.postSentiments := by
  unfold processCommentChild
  dsimp only
  repeat' split
  all_goals rfl

/-- Processing one comment child never touches the warnings. -/
theorem pcc_errors (ctx : SubCtx) (pid : String) (st : SubState)
    (cc : CommentChild) :
    (processCommentChild ctx pid st cc).errors = st.errors := by
  unfold processCommentChild
  dsimp only
  repeat' split
  all_goals rfl

/-- A whole comment pass never touches the post-record drafts. -/
theorem foldl_pcc_postRecords (ctx : SubCtx) (pid : String)
    (cs : List CommentChild) :
    ∀ st : SubState,
      (cs.foldl (processCommentChild ctx pid) st).postRecords = st.postRecords := by
  induction cs with
  | nil => intro st; rfl
  | cons c cs ih =>
    intro st
    rw [List.foldl_cons, ih, pcc_postRecords]

/-- A whole comment pass never touches the post-sentiment drafts. -/
theorem foldl_pcc_postSentiments (ctx : SubCtx) (pid : String)
    (cs : List CommentChild) :
    ∀ st : SubState,
      (cs.foldl (processCommentChild ctx pid) st).postSentiments = st.postSentiments := by
  induction cs with
  | nil => intro st; rfl
  | cons c cs ih =>
    intro st
    rw [List.foldl_cons, ih, pcc_postSentiments]

/-- A whole comment pass never touches the warnings. -/
theorem foldl_pcc_errors (ctx : SubCtx) (pid : String)
    (cs : List CommentChild) :
    ∀ st : SubState,
      (cs.foldl (processCommentChild ctx pid) st).errors = st.errors := by
  induction cs with
  | nil => intro st; rfl
  | cons c cs ih =>
    intro st
    rw [List.foldl_cons, ih, pcc_errors]

/-- Comment-record characterization of one comment-child step. -/
theorem pcc_commentRecords (ctx : SubCtx) (pid : String) (st : SubState)
    (cc : CommentChild) :
    (processCommentChild ctx pid st cc).commentRecords =
      st.commentRecords ++ commentRecSeg ctx pid cc := by
  unfold processCommentChild commentRecSeg
  dsimp only
  repeat' split
  all_goals simp_all

/-- Comment-sentiment characterization of one comment-child step. -/
theorem pcc_commentSentiments (ctx : SubCtx) (pid : String) (st : SubState)
    (cc : CommentChild) :
    (processCommentChild ctx pid st cc).commentSentiments =
      st.commentSentiments ++ commentSentSeg ctx cc := by
  unfold processCommentChild commentSentSeg
  dsimp only
  repeat' split
  all_goals simp_all

/-- Comment-sentiment characterization of a whole comment pass. -/
theorem foldl_pcc_commentSentiments (ctx : SubCtx) (pid : String)
    (cs : List CommentChild) :
    ∀ st : SubState,
      (cs.foldl (processCommentChild ctx pid) st).commentSentiments =
        st.commentSentiments ++ (cs.map (commentSentSeg ctx)).flatten := by
  induction cs with
  | nil => intro st; simp
  | cons c cs ih =>
    intro st
    rw [List.foldl_cons, ih, pcc_commentSentiments]
    simp

/-- Post-record characterization of one listing-child step. -/
theorem processChild_postRecords (ctx : SubCtx) (st : SubState)
    (child : RedditChild) :
    (processChild ctx st child).postRecords =
      st.postRecords ++ recordSeg ctx child := by
  unfold processChild recordSeg
  dsimp only
  repeat' split
  all_goals simp_all [foldl_pcc_postRecords]

/-- Post-sentiment characterization of one listing-child step; the
right-hand side makes no reference to the comments environment. -/
theorem processChild_postSentiments (ctx : SubCtx) (st : SubState)
    (child : RedditChild) :
    (processChild ctx st child).postSentiments =
      st.postSentiments ++
        postSentSeg ctx.subreddit_id ctx.subreddit_name ctx.timeframe
          ctx.sinceEpoch ctx.keyword ctx.score ctx.now child := by
  unfold processChild postSentSeg
  dsimp only
  repeat' split
  all_goals simp_all [foldl_pcc_postSentiments, mkPostSentiment]

/-- Warning characterization of one listing-child step. -/
theorem processChild_errors (ctx : SubCtx) (st : SubState)
    (child : RedditChild) :
    (processChild ctx st child).errors = st.errors ++ errSeg ctx child := by
  unfold processChild errSeg
  dsimp only
  repeat' split
  all_goals simp_all [foldl_pcc_errors]

/-- Comment-sentiment characterization of one listing-child step. -/
theorem processChild_commentSentiments (ctx : SubCtx) (st : SubState)
    (child : RedditChild) :
    (processChild ctx st child).commentSentiments =
      st.commentSentiments ++ childCommentSentSeg ctx child := by
  unfold processChild childCommentSentSeg
  dsimp only
  repeat' split
  all_goals simp_all [foldl_pcc_commentSentiments]

/-- Post-sentiment characterization of the whole listing fold. -/
theorem foldl_children_postSentiments (ctx : SubCtx)
    (children : List RedditChild) :
    ∀ st : SubState,
      (children.foldl (processChild ctx) st).postSentiments =
        st.postSentiments ++
          (children.map (postSentSeg ctx.subreddit_id ctx.subreddit_name
            ctx.timeframe ctx.sinceEpoch ctx.keyword ctx.score ctx.now)).flatten := by
  induction children with
  | nil => intro st; simp
  | cons c cs ih =>
    intro st
    rw [List.foldl_cons, ih, processChild_postSentiments]
    simp

/-- Warning characterization of the whole listing fold. -/
theorem foldl_children_errors (ctx : SubCtx) (children : List RedditChild) :
    ∀ st : SubState,
      (children.foldl (processChild ctx) st).errors =
        st.errors ++ (children.map (errSeg ctx)).flatten := by
  induction children with
  | nil => intro st; simp
  | cons c cs ih =>
    intro st
    rw [List.foldl_cons, ih, processChild_errors]
    simp

/-- Comment-sentiment characterization of the whole listing fold. -/
theorem foldl_children_commentSentiments (ctx : SubCtx)
    (children : List RedditChild) :
    ∀ st : SubState,
      (children.foldl (processChild ctx) st).commentSentiments =
        st.commentSentiments ++ (children.map (childCommentSentSeg ctx)).flatten := by
  induction children with
  | nil => intro st; simp
  | cons c cs ih =>
    intro st
    rw [List.foldl_cons, ih, processChild_commentSentiments]
    simp

/-- C7: an item created strictly before the cutoff epoch (even by one
second) is excluded entirely — the state is unchanged, so it reaches no
draft, sentiment or aggregate — and an item at or after the cutoff passes
the window check (with the other keep-conditions, its draft is appended). -/
theorem claim_C7_window_cutoff :
    (∀ (ctx : SubCtx) (st : SubState) (child : RedditChild)
       (data : RedditPostData) (t : Int),
       child.data = some data → data.created_utc = some t →
       t < ctx.sinceEpoch → processChild ctx st child = st) ∧
    (∀ (ctx : SubCtx) (pid : String) (st : SubState) (cc : CommentChild)
       (cd : RedditCommentData) (t : Int),
       cc.data = some cd → cd.created_utc = some t →
       t < ctx.sinceEpoch → processCommentChild ctx pid st cc = st) ∧
    (∀ (ctx : SubCtx) (st : SubState) (child : RedditChild)
       (data : RedditPostData) (t : Int),
       child.data = some data → child.kind = "t3" →
       data.stickied = false → data.removed_by_category = false →
       data.created_utc = some t → ctx.sinceEpoch ≤ t →
       kwBlocks ctx.keyword (combinedTextOf data) = false →
       (processChild ctx st child).postRecords =
         st.postRecords ++ [mkPostRecord ctx data t]) ∧
    (∀ (ctx : SubCtx) (pid : String) (st : SubState) (cc : CommentChild)
       (cd : RedditCommentData) (t : Int),
       cc.kind = "t1" → cc.data = some cd → cd.created_utc = some t →
       ctx.sinceEpoch ≤ t → sanitizeText cd.body ≠ "" →
       kwBlocks ctx.keyword (sanitizeText cd.body) = false →
       (processCommentChild ctx pid st cc).commentRecords =
         st.commentRecords ++ [mkCommentRecord pid cd t]) := by
  refine ⟨?_, ?_, ?_, ?_⟩
  · intro ctx st child data t hdata ht hlt
    obtain ⟨kind, cdata⟩ := child
    simp only at hdata
    subst hdata
    simp only [processChild]
    split
    · rfl
    · split
      · rfl
      · rw [ht]
        simp only
        rw [if_pos hlt]
  · intro ctx pid st cc cd t hdata ht hlt
    obtain ⟨kind, ccdata⟩ := cc
    simp only at hdata
    subst hdata
    simp only [processCommentChild]
    split
    · rfl
    · rw [ht]
      simp only
      rw [if_pos hlt]
  · intro ctx st child data t hdata hkind hstick hrem ht hwin hkw
    have hnl : ¬ t < ctx.sinceEpoch := not_lt.mpr hwin
    rw [processChild_postRecords]
    simp [recordSeg, hdata, hkind, hstick, hrem, ht, hkw, hnl]
  · intro ctx pid st cc cd t hkind hdata ht hwin hbody hkw
    obtain ⟨kind, ccdata⟩ := cc
    simp only at hdata hkind
    subst hdata
    subst hkind
    simp only [processCommentChild]
    rw [if_neg (by simp), ht]
    simp only
    rw [if_neg (by omega), if_neg hbody, hkw]
    simp only [Bool.false_eq_true, if_false]

/-- Witness for C7: cutoff 100; a post and a comment at 99 are dropped, and
at 100 they are kept. -/
theorem claim_C7_window_cutoff_witness :
    processChild ctx0 emptySubState (childAt 99) = emptySubState ∧
    processCommentChild ctx0 "p1" emptySubState (cchildAt 99) = emptySubState ∧
    (processChild ctx0 emptySubState (childAt 100)).postRecords =
      emptySubState.postRecords ++ [mkPostRecord ctx0 (postAt 100) 100] ∧
    (processCommentChild ctx0 "p1" emptySubState (cchildAt 100)).commentRecords =
      emptySubState.commentRecords ++ [mkCommentRecord "p1" (commentAt 100) 100] := by
  refine ⟨?_, ?_, ?_, ?_⟩
  · exact claim_C7_window_cutoff.1 ctx0 emptySubState (childAt 99) (postAt 99) 99
      rfl rfl (by decide)
  · exact claim_C7_window_cutoff.2.1 ctx0 "p1" emptySubState (cchildAt 99)
      (commentAt 99) 99 rfl rfl (by decide)
  · exact claim_C7_window_cutoff.2.2.1 ctx0 emptySubState (childAt 100)
      (postAt 100) 100 rfl rfl rfl rfl rfl (by decide) rfl
  · exact claim_C7_window_cutoff.2.2.2 ctx0 "p1" emptySubState (cchildAt 100)
      (commentAt 100) 100 rfl rfl rfl (by decide) (by decide) rfl

/-- C10: omitting the timeframe field is not rejected — the handler behaves
exactly as if `"7d"` had been supplied, and `"7d"` passes validation (the
web proxy route applies the same default); a keyword that is empty or
whitespace-only after trimming is normalized to no keyword at all, in both
the edge function and the web proxy route. -/
theorem claim_C10_payload_defaults :
    (∀ (env : ServeEnv) (p : RefreshPayload), env.payload = some p →
       p.timeframe = none →
       serveHandler env =
         serveHandler { env with payload := some { p with timeframe := some "7d" } }) ∧
    timeframeSupported "7d" = true ∧
    routeTimeframe none = "7d" ∧
    (∀ s : String, trimStr s = "" →
       normalizeKeyword (some s) = normalizeKeyword none ∧
       routeKeyword (some s) = none) := by
  refine ⟨?_, rfl, rfl, ?_⟩
  · intro env p hp htf
    obtain ⟨pl, creds, sup, run, store⟩ := env
    obtain ⟨ptf, pkw⟩ := p
    simp only at hp htf
    subst hp
    subst htf
    rfl
  · intro s h
    constructor
    · unfold normalizeKeyword
      dsimp only
      by_cases hs : s = ""
      · rw [if_pos hs]
      · rw [if_neg hs, h]
        simp [lowerStr]
    · unfold routeKeyword
      dsimp only
      rw [if_pos h]

/-- Witness for C10 on a payload with no timeframe and a blank keyword. -/
theorem claim_C10_payload_defaults_witness :
    serveHandler envDefaultTf =
      serveHandler { envDefaultTf with
        payload := some { timeframe := some "7d", keyword := some "  " } } ∧
    normalizeKeyword (some "  ") = normalizeKeyword none := by
  constructor
  · exact claim_C10_payload_defaults.1 envDefaultTf
      { timeframe := none, keyword := some "  " } rfl rfl
  · exact (claim_C10_payload_defaults.2.2.2 "  " (by decide)).1

/-- C1 counterexample: a run with one SubredditProcessor warning and fully
successful persistence.  The caller is told `completed_with_warnings`, but
the status recorded on the `refresh_jobs` row is `completed` — the claim's
"recorded on the RefreshRun record" half is false. -/
theorem claim_C1_counterexample :
    (serveHandler envWarn).responseStatus = some "completed_with_warnings" ∧
    (serveHandler envWarn).recordedStatus = some "completed" ∧
    (serveHandler envWarn).recordedStatus ≠ some "completed_with_warnings" := by
  refine ⟨rfl, rfl, by decide⟩

/-- C1 (amended): when token fetch and the whole refresh succeed, the
handler reports `completed_with_warnings` to the caller iff any warning was
recorded (else `completed`), while the job row's terminal status is always
recorded as `completed`, with the warnings joined into its `error` field. -/
theorem claim_C1_terminal_status (env : ServeEnv) (p : RefreshPayload)
    (s' : Store) (result : ProcessResult) (tok : String)
    (hp : env.payload = some p)
    (htf : timeframeSupported (p.timeframe.getD "7d") = true)
    (hsb : env.supabaseConfigured = true)
    (htok : fetchRedditAccessToken env.creds = Except.ok tok)
    (hrun : processRefresh env.run (p.timeframe.getD "7d")
      (normalizeKeyword p.keyword) env.store = Except.ok (s', result)) :
    (serveHandler env).recordedStatus = some "completed" ∧
    (serveHandler env).responseStatus =
      some (if result.errors.length > 0 then "completed_with_warnings"
            else "completed") ∧
    (serveHandler env).recordedError =
      (if result.errors.length > 0 then some (joinWarnings result.errors)
       else none) := by
  unfold serveHandler
  rw [hp]
  simp only [htf, hsb, htok, hrun]
  simp

/-- Witness for C1 (amended) on the one-warning run. -/
theorem claim_C1_terminal_status_witness :
    (serveHandler envWarn).recordedStatus = some "completed" ∧
    (serveHandler envWarn).responseStatus =
      some (if c1pair.2.errors.length > 0 then "completed_with_warnings"
            else "completed") ∧
    (serveHandler envWarn).recordedError =
      (if c1pair.2.errors.length > 0 then some (joinWarnings c1pair.2.errors)
       else none) :=
  claim_C1_terminal_status envWarn { timeframe := some "7d", keyword := none }
    c1pair.1 c1pair.2 "tok" rfl rfl rfl rfl rfl

/-- With absent or empty client credentials, every token acquisition path
fails with the configuration error. -/
theorem fetchToken_missing_client (env : CredEnv)
    (h : credPresent env.clientId = false ∨ credPresent env.clientSecret = false) :
    fetchRedditAccessToken env =
      Except.error "Reddit client credentials are not configured." := by
  have hcc : (credPresent env.clientId && credPresent env.clientSecret) = false := by
    rcases h with h | h <;> simp [h]
  have hinc : strIncludes "Reddit client credentials are not configured."
      "unauthorized_client" = false := by decide
  by_cases hup : (credPresent env.username && credPresent env.password) = true
  · simp [fetchRedditAccessToken, requestRedditAccessToken, hcc, hup, hinc]
  · simp [fetchRedditAccessToken, requestRedditAccessToken, hcc, hup]

/-- C4 counterexample: a trigger with a supported timeframe but missing
Reddit credentials.  The claim says no job row exists for such an
invocation; in fact the job row is created first and then marked `failed`
when the token fetch throws. -/
theorem claim_C4_counterexample :
    credPresent envNoCreds.creds.clientId = false ∧
    (serveHandler envNoCreds).jobInserted = true ∧
    (serveHandler envNoCreds).recordedStatus = some "failed" := by
  refine ⟨rfl, ?_, ?_⟩ <;> rfl

/-- C4 (amended): an unsupported timeframe is rejected with HTTP 400 before
any job row exists, but missing Reddit credentials are only detected at
token-fetch time, after the job row was inserted: the row exists and is
marked `failed`. -/
theorem claim_C4_config_validation :
    (∀ (env : ServeEnv) (p : RefreshPayload), env.payload = some p →
       timeframeSupported (p.timeframe.getD "7d") = false →
       (serveHandler env).jobInserted = false ∧
       (serveHandler env).httpStatus = 400) ∧
    (∀ (env : ServeEnv) (p : RefreshPayload), env.payload = some p →
       timeframeSupported (p.timeframe.getD "7d") = true →
       env.supabaseConfigured = true →
       (credPresent env.creds.clientId = false ∨
        credPresent env.creds.clientSecret = false) →
       (serveHandler env).jobInserted = true ∧
       (serveHandler env).recordedStatus = some "failed") := by
  constructor
  · intro env p hp htf
    unfold serveHandler
    rw [hp]
    simp [htf]
  · intro env p hp htf hsb hcred
    unfold serveHandler
    rw [hp]
    simp only [htf, hsb, fetchToken_missing_client env.creds hcred]
    simp

/-- Witness for C4 (amended): the `"48h"` payload is rejected with no job
row; the credential-less environment gets a failed job row. -/
theorem claim_C4_config_validation_witness :
    ((serveHandler envBadTf).jobInserted = false ∧
     (serveHandler envBadTf).httpStatus = 400) ∧
    ((serveHandler envNoCreds).jobInserted = true ∧
     (serveHandler envNoCreds).recordedStatus = some "failed") := by
  constructor
  · exact claim_C4_config_validation.1 envBadTf
      { timeframe := some "48h", keyword := none } rfl (by decide)
  · exact claim_C4_config_validation.2 envNoCreds
      { timeframe := some "7d", keyword := none } rfl (by decide) rfl
      (Or.inl rfl)

/-- Every `fetchJson` trace begins with the request of its start attempt. -/
theorem fetchJson_head (resp : ℕ → HttpResponse) (url : String) (a : ℕ) :
    ∃ rest, (fetchJson resp url a).2 = FetchEv.request a :: rest := by
  rw [fetchJson]
  split
  · exact ⟨_, rfl⟩
  · split
    · exact ⟨_, rfl⟩
    · split
      · exact ⟨[], rfl⟩
      · exact ⟨[], rfl⟩

/-- From attempt 3 on, no retry path is taken: one request is issued. -/
theorem fetchJson_events_last (resp : ℕ → HttpResponse) (url : String)
    (a : ℕ) (h : 3 ≤ a) :
    (fetchJson resp url a).2 = [FetchEv.request a] := by
  rw [fetchJson]
  rw [dif_neg (by rintro ⟨-, hlt⟩; omega)]
  rw [dif_neg (by rintro ⟨-, hlt⟩; omega)]
  split
  · rfl
  · rfl

/-- A leading request event adds one to the request count. -/
theorem countRequests_cons_request (a : ℕ) (t : List FetchEv) :
    countRequests (FetchEv.request a :: t) = countRequests t + 1 := by
  simp [countRequests, List.filter_cons]

/-- A token refresh event does not change the request count. -/
theorem countRequests_cons_refresh (t : List FetchEv) :
    countRequests (FetchEv.refreshTok :: t) = countRequests t := by
  simp [countRequests, List.filter_cons]

/-- A backoff event does not change the request count. -/
theorem countRequests_cons_backoff (ms : ℕ) (t : List FetchEv) :
    countRequests (FetchEv.backoff ms :: t) = countRequests t := by
  simp [countRequests, List.filter_cons]

/-- Attempt 2 issues at most two requests. -/
theorem fetchJson_count_two (resp : ℕ → HttpResponse) (url : String) :
    countRequests (fetchJson resp url 2).2 ≤ 2 := by
  rw [fetchJson]
  split
  · dsimp only
    rw [countRequests_cons_request, countRequests_cons_refresh,
      show (2:ℕ) + 1 = 3 from rfl, fetchJson_events_last resp url 3 le_rfl]
    simp [countRequests, List.filter_cons]
  · split
    · dsimp only
      rw [countRequests_cons_request, countRequests_cons_backoff,
        show (2:ℕ) + 1 = 3 from rfl, fetchJson_events_last resp url 3 le_rfl]
      simp [countRequests, List.filter_cons]
    · split
      · simp [countRequests, List.filter_cons]
      · simp [countRequests, List.filter_cons]

/-- C5 (amended): at most three attempts per logical request; a 401 with
attempts left refreshes the token and reissues the request at once, with no
backoff event in between; a 429/403 with attempts left sleeps
`RATE_LIMIT_MS * attempt` and retries — where `attempt` counts every prior
attempt, including ones consumed by 401 refreshes, so a 401 retry does
count toward both the attempt cap and later backoff multipliers; any other
non-2xx fails at once with the response body and no retry; a 2xx returns
the body. -/
theorem claim_C5_retry_policy :
    (∀ (resp : ℕ → HttpResponse) (url : String),
       countRequests (fetchJson resp url 1).2 ≤ 3) ∧
    (∀ (resp : ℕ → HttpResponse) (url : String) (a : ℕ),
       (resp a).status = 401 → a < 3 →
       ∃ rest, (fetchJson resp url a).2 =
           FetchEv.request a :: FetchEv.refreshTok ::
             FetchEv.request (a + 1) :: rest ∧
         (fetchJson resp url a).1 = (fetchJson resp url (a + 1)).1) ∧
    (∀ (resp : ℕ → HttpResponse) (url : String) (a : ℕ),
       ((resp a).status = 429 ∨ (resp a).status = 403) → a < 3 →
       ∃ rest, (fetchJson resp url a).2 =
           FetchEv.request a :: FetchEv.backoff (RATE_LIMIT_MS * a) ::
             FetchEv.request (a + 1) :: rest ∧
         (fetchJson resp url a).1 = (fetchJson resp url (a + 1)).1) ∧
    (∀ (resp : ℕ → HttpResponse) (url : String) (a : ℕ),
       (resp a).status ≠ 401 → (resp a).status ≠ 429 → (resp a).status ≠ 403 →
       ¬ (200 ≤ (resp a).status ∧ (resp a).status < 300) →
       fetchJson resp url a =
         (Except.error ("Reddit request failed (" ++ toString (resp a).status ++
            "): " ++ url ++ " :: " ++ (resp a).body),
          [FetchEv.request a])) ∧
    (∀ (resp : ℕ → HttpResponse) (url : String) (a : ℕ),
       200 ≤ (resp a).status → (resp a).status < 300 →
       fetchJson resp url a = (Except.ok (resp a).body, [FetchEv.request a])) := by
  refine ⟨?_, ?_, ?_, ?_, ?_⟩
  · intro resp url
    have h2 := fetchJson_count_two resp url
    rw [fetchJson]
    split
    · dsimp only
      rw [countRequests_cons_request, countRequests_cons_refresh,
        show (1:ℕ) + 1 = 2 from rfl]
      omega
    · split
      · dsimp only
        rw [countRequests_cons_request, countRequests_cons_backoff,
          show (1:ℕ) + 1 = 2 from rfl]
        omega
      · split
        · simp [countRequests, List.filter_cons]
        · simp [countRequests, List.filter_cons]
  · intro resp url a h1 h2
    obtain ⟨rest, hrest⟩ := fetchJson_head resp url (a + 1)
    refine ⟨rest, ?_, ?_⟩
    · rw [fetchJson, dif_pos ⟨h1, h2⟩]
      simp [hrest]
    · rw [fetchJson, dif_pos ⟨h1, h2⟩]
  · intro resp url a h1 h2
    have hn401 : ¬ ((resp a).status = 401 ∧ a < 3) := by
      rcases h1 with h | h <;> simp [h]
    obtain ⟨rest, hrest⟩ := fetchJson_head resp url (a + 1)
    refine ⟨rest, ?_, ?_⟩
    · rw [fetchJson, dif_neg hn401, dif_pos ⟨h1, h2⟩]
      simp [hrest]
    · rw [fetchJson, dif_neg hn401, dif_pos ⟨h1, h2⟩]
  · intro resp url a h1 h2 h3 h4
    have hb : (200 ≤ (resp a).status && (resp a).status < 300) = false := by
      cases hcase : (200 ≤ (resp a).status && (resp a).status < 300) with
      | false => rfl
      | true =>
        exfalso
        apply h4
        simpa only [Bool.and_eq_true, decide_eq_true_eq] using hcase
    rw [fetchJson]
    rw [dif_neg (by rintro ⟨hs, -⟩; exact h1 hs)]
    rw [dif_neg (by rintro ⟨hs, -⟩; rcases hs with hs | hs; exact h2 hs; exact h3 hs)]
    rw [hb]
    rfl
  · intro resp url a h1 h2
    have hb : (200 ≤ (resp a).status && (resp a).status < 300) = true := by
      simp only [Bool.and_eq_true, decide_eq_true_eq]
      exact ⟨h1, h2⟩
    rw [fetchJson]
    rw [dif_neg (by rintro ⟨hs, -⟩; omega)]
    rw [dif_neg (by rintro ⟨hs, -⟩; rcases hs with hs | hs <;> omega)]
    rw [hb]
    rfl

/-- Witness for C5 on concrete wires: a 401 at attempt 1, a 429 at attempt
2, a plain 500 failure, and a 2xx success. -/
theorem claim_C5_retry_policy_witness :
    countRequests (fetchJson resp401then429 "u" 1).2 ≤ 3 ∧
    (∃ rest, (fetchJson resp401then429 "u" 1).2 =
        FetchEv.request 1 :: FetchEv.refreshTok :: FetchEv.request 2 :: rest ∧
      (fetchJson resp401then429 "u" 1).1 = (fetchJson resp401then429 "u" 2).1) ∧
    (∃ rest, (fetchJson resp401then429 "u" 2).2 =
        FetchEv.request 2 :: FetchEv.backoff (RATE_LIMIT_MS * 2) ::
          FetchEv.request 3 :: rest ∧
      (fetchJson resp401then429 "u" 2).1 = (fetchJson resp401then429 "u" 3).1) ∧
    fetchJson resp500 "u" 1 =
      (Except.error ("Reddit request failed (" ++ toString (resp500 1).status ++
        "): " ++ "u" ++ " :: " ++ (resp500 1).body), [FetchEv.request 1]) ∧
    fetchJson respOk "u" 1 = (Except.ok (respOk 1).body, [FetchEv.request 1]) := by
  refine ⟨claim_C5_retry_policy.1 resp401then429 "u",
    claim_C5_retry_policy.2.1 resp401then429 "u" 1 (by decide) (by decide),
    claim_C5_retry_policy.2.2.1 resp401then429 "u" 2 (Or.inl (by decide)) (by decide),
    claim_C5_retry_policy.2.2.2.1 resp500 "u" 1 (by decide) (by decide) (by decide) (by decide),
    claim_C5_retry_policy.2.2.2.2 respOk "u" 1 (by decide) (by decide)⟩

/-- C5 counterexample: on the 401-then-429 wire the single rate-limit wait
is `RATE_LIMIT_MS * 2`, not `RATE_LIMIT_MS * 1`: the 401 refresh retry
advanced the shared attempt counter, so it does count against the
rate-limit backoff, contradicting the claim. -/
theorem claim_C5_counterexample :
    (fetchJson resp401then429 "u" 1).2 =
      [FetchEv.request 1, FetchEv.refreshTok, FetchEv.request 2,
       FetchEv.backoff 1800, FetchEv.request 3] ∧
    FetchEv.backoff (RATE_LIMIT_MS * 1) ∉ (fetchJson resp401then429 "u" 1).2 ∧
    (1800 : ℕ) = RATE_LIMIT_MS * 2 := by
  have htrace : (fetchJson resp401then429 "u" 1).2 =
      [FetchEv.request 1, FetchEv.refreshTok, FetchEv.request 2,
       FetchEv.backoff 1800, FetchEv.request 3] := by
    simp [fetchJson, resp401then429, RATE_LIMIT_MS]
  refine ⟨htrace, ?_, rfl⟩
  rw [htrace]
  decide

/-- A string has positive length iff it is non-empty. -/
theorem string_length_pos (s : String) : 0 < s.length ↔ s ≠ "" := by
  cases s with
  | mk data =>
    cases data with
    | nil => simp [String.length]
    | cons c cs =>
      refine ⟨fun _ h => ?_, fun _ => by simp [String.length]⟩
      have hdata := congrArg String.data h
      simp at hdata

/-- The skip guard is the negation of `matchesKeyword`. -/
theorem kwBlocks_eq_not_matches (kw : Option String) (text : String) :
    kwBlocks kw text = !matchesKeyword text kw := by
  cases kw <;> simp [kwBlocks, matchesKeyword]

/-- C6 counterexample: an in-window, non-stickied, non-removed post whose
text is empty after sentinel stripping.  The claim's filter discards it
("a discarded one contributes nothing"), but the code still contributes its
post draft record and still fetches and scores its comments — only the
post sentiment is suppressed. -/
theorem claim_C6_counterexample :
    specKeepsPost ctxC6.sinceEpoch ctxC6.keyword dataEmptyText 200 = false ∧
    (processChild ctxC6 emptySubState childEmptyText).postRecords ≠ [] ∧
    (processChild ctxC6 emptySubState childEmptyText).commentSentiments ≠ [] ∧
    (processChild ctxC6 emptySubState childEmptyText).postSentiments = [] := by
  refine ⟨by decide, by decide, by decide, by decide⟩

/-- C6 (amended): the spec's keep-predicate characterizes exactly which
items contribute a *sentiment* draft.  For posts the draft *record* does
not require non-empty text: it is kept whenever the item is a non-stickied,
non-removed, in-window `t3` child matching the keyword.  For comments the
claim's filter (restricted to the fields comments carry) characterizes both
the record and the sentiment. -/
theorem claim_C6_content_filter :
    (∀ (ctx : SubCtx) (st : SubState) (child : RedditChild)
       (data : RedditPostData) (t : Int),
       child.data = some data → child.kind = "t3" → data.created_utc = some t →
       (processChild ctx st child).postSentiments =
         st.postSentiments ++
           (if specKeepsPost ctx.sinceEpoch ctx.keyword data t then
             [mkPostSentiment ctx data t] else [])) ∧
    (∀ (ctx : SubCtx) (st : SubState) (child : RedditChild)
       (data : RedditPostData) (t : Int),
       child.data = some data → child.kind = "t3" → data.created_utc = some t →
       (processChild ctx st child).postRecords =
         st.postRecords ++
           (if keepPostRecordCond ctx.sinceEpoch ctx.keyword data t then
             [mkPostRecord ctx data t] else [])) ∧
    (∀ (ctx : SubCtx) (pid : String) (st : SubState) (cc : CommentChild)
       (cd : RedditCommentData) (t : Int),
       cc.kind = "t1" → cc.data = some cd → cd.created_utc = some t →
       (processCommentChild ctx pid st cc).commentRecords =
         st.commentRecords ++
           (if specKeepsComment ctx.sinceEpoch ctx.keyword cd t then
             [mkCommentRecord pid cd t] else []) ∧
       (processCommentChild ctx pid st cc).commentSentiments =
         st.commentSentiments ++
           (if specKeepsComment ctx.sinceEpoch ctx.keyword cd t then
             [mkCommentSentiment ctx cd t] else [])) := by
  refine ⟨?_, ?_, ?_⟩
  · intro ctx st child data t hdata hkind ht
    rw [processChild_postSentiments]
    congr 1
    unfold postSentSeg specKeepsPost
    rw [hdata]
    simp only [hkind, ht]
    rw [if_neg (by simp)]
    by_cases hs : data.stickied
    · simp [hs]
    · by_cases hr : data.removed_by_category
      · simp [hs, hr]
      · by_cases hw : t < ctx.sinceEpoch
        · simp [hs, hr, hw, (by omega : ¬ ctx.sinceEpoch ≤ t)]
        · by_cases hk : kwBlocks ctx.keyword (combinedTextOf data) = true
          · have hm : matchesKeyword (combinedTextOf data) ctx.keyword = false := by
              rw [kwBlocks_eq_not_matches] at hk
              simpa using hk
            simp [hs, hr, hw, hk, hm, (by omega : ctx.sinceEpoch ≤ t)]
          · have hm : matchesKeyword (combinedTextOf data) ctx.keyword = true := by
              rw [kwBlocks_eq_not_matches] at hk
              simpa using hk
            by_cases hlen : 0 < (combinedTextOf data).length
            · have hne : ¬ combinedTextOf data = "" := (string_length_pos _).mp hlen
              simp [hs, hr, hw, hk, hm, hlen, hne,
                (by omega : ctx.sinceEpoch ≤ t)]
              rfl
            · have heq : combinedTextOf data = "" := by
                by_contra hne
                exact hlen ((string_length_pos _).mpr hne)
              simp [hs, hr, hw, hk, hm, hlen, heq,
                (by omega : ctx.sinceEpoch ≤ t)]
  · intro ctx st child data t hdata hkind ht
    rw [processChild_postRecords]
    congr 1
    unfold recordSeg keepPostRecordCond
    rw [hdata]
    simp only [hkind, ht]
    rw [if_neg (by simp)]
    by_cases hs : data.stickied
    · simp [hs]
    · by_cases hr : data.removed_by_category
      · simp [hs, hr]
      · by_cases hw : t < ctx.sinceEpoch
        · simp [hs, hr, hw]
        · by_cases hk : kwBlocks ctx.keyword (combinedTextOf data) = true
          · simp [hs, hr, hw, hk]
          · simp [hs, hr, hw, hk]
  · intro ctx pid st cc cd t hkind hdata ht
    constructor
    · rw [pcc_commentRecords]
      congr 1
      unfold commentRecSeg specKeepsComment
      rw [if_neg (by simp [hkind]), hdata]
      simp only [ht]
      by_cases hw : t < ctx.sinceEpoch
      · simp [hw, (by omega : ¬ ctx.sinceEpoch ≤ t)]
      · by_cases hb : sanitizeText cd.body = ""
        · simp [hw, hb, (by omega : ctx.sinceEpoch ≤ t)]
        · by_cases hk : kwBlocks ctx.keyword (sanitizeText cd.body) = true
          · have hm : matchesKeyword (sanitizeText cd.body) ctx.keyword = false := by
              rw [kwBlocks_eq_not_matches] at hk
              simpa using hk
            simp [hw, hb, hk, hm, (by omega : ctx.sinceEpoch ≤ t)]
          · have hm : matchesKeyword (sanitizeText cd.body) ctx.keyword = true := by
              rw [kwBlocks_eq_not_matches] at hk
              simpa using hk
            simp [hw, hb, hk, hm, (by omega : ctx.sinceEpoch ≤ t)]
    · rw [pcc_commentSentiments]
      congr 1
      unfold commentSentSeg specKeepsComment
      rw [if_neg (by simp [hkind]), hdata]
      simp only [ht]
      by_cases hw : t < ctx.sinceEpoch
      · simp [hw, (by omega : ¬ ctx.sinceEpoch ≤ t)]
      · by_cases hb : sanitizeText cd.body = ""
        · simp [hw, hb, (by omega : ctx.sinceEpoch ≤ t)]
        · by_cases hk : kwBlocks ctx.keyword (sanitizeText cd.body) = true
          · have hm : matchesKeyword (sanitizeText cd.body) ctx.keyword = false := by
              rw [kwBlocks_eq_not_matches] at hk
              simpa using hk
            simp [hw, hb, hk, hm, (by omega : ctx.sinceEpoch ≤ t)]
          · have hm : matchesKeyword (sanitizeText cd.body) ctx.keyword = true := by
              rw [kwBlocks_eq_not_matches] at hk
              simpa using hk
            simp [hw, hb, hk, hm, (by omega : ctx.sinceEpoch ≤ t)]

/-- Witness for C6: the kept post/comment pair at time 100 and the
empty-text post. -/
theorem claim_C6_content_filter_witness :
    (processChild ctx0 emptySubState (childAt 100)).postSentiments =
      emptySubState.postSentiments ++
        (if specKeepsPost ctx0.sinceEpoch ctx0.keyword (postAt 100) 100 then
          [mkPostSentiment ctx0 (postAt 100) 100] else []) ∧
    (processChild ctxC6 emptySubState childEmptyText).postRecords =
      emptySubState.postRecords ++
        (if keepPostRecordCond ctxC6.sinceEpoch ctxC6.keyword dataEmptyText 200 then
          [mkPostRecord ctxC6 dataEmptyText 200] else []) ∧
    (processCommentChild ctx0 "p1" emptySubState (cchildAt 100)).commentRecords =
      emptySubState.commentRecords ++
        (if specKeepsComment ctx0.sinceEpoch ctx0.keyword (commentAt 100) 100 then
          [mkCommentRecord "p1" (commentAt 100) 100] else []) := by
  refine ⟨?_, ?_, ?_⟩
  · exact claim_C6_content_filter.1 ctx0 emptySubState (childAt 100)
      (postAt 100) 100 rfl rfl rfl
  · exact claim_C6_content_filter.2.1 ctxC6 emptySubState childEmptyText
      dataEmptyText 200 rfl rfl rfl
  · exact (claim_C6_content_filter.2.2 ctx0 "p1" emptySubState (cchildAt 100)
      (commentAt 100) 100 rfl rfl rfl).1

/-- C2: in any listing batch, a kept post whose comment fetch throws gets a
warning naming it recorded on the run (i); the post sentiments of the whole
batch never depend on the comments environment, so every other post keeps
its sentiment drafts (ii); every kept comment of a kept post whose fetch
succeeded contributes its sentiment draft (iii); and a run that reaches a
successful `processRefresh` — warnings and all — is never finalized as
`failed` (iv). -/
theorem claim_C2_comment_fetch_partial_failure :
    (∀ (ctx : SubCtx) (st : SubState) (children : List RedditChild)
       (child : RedditChild) (data : RedditPostData) (t : Int) (msg : String),
       child ∈ children → child.data = some data → child.kind = "t3" →
       data.stickied = false → data.removed_by_category = false →
       data.created_utc = some t → ¬ t < ctx.sinceEpoch →
       kwBlocks ctx.keyword (combinedTextOf data) = false →
       ctx.commentsEnv data.id = Except.error msg →
       commentFetchWarning ctx data.id msg ∈
         (children.foldl (processChild ctx) st).errors) ∧
    (∀ (ctx : SubCtx) (env' : String → Except String (List CommentChild))
       (st : SubState) (children : List RedditChild),
       (children.foldl (processChild { ctx with commentsEnv := env' }) st).postSentiments =
         (children.foldl (processChild ctx) st).postSentiments) ∧
    (∀ (ctx : SubCtx) (st : SubState) (children : List RedditChild)
       (child : RedditChild) (data : RedditPostData) (t : Int)
       (cs : List CommentChild) (cc : CommentChild) (cd : RedditCommentData)
       (t' : Int),
       child ∈ children → child.data = some data → child.kind = "t3" →
       data.stickied = false → data.removed_by_category = false →
       data.created_utc = some t → ¬ t < ctx.sinceEpoch →
       kwBlocks ctx.keyword (combinedTextOf data) = false →
       ctx.commentsEnv data.id = Except.ok cs →
       cc ∈ cs → cc.kind = "t1" → cc.data = some cd →
       cd.created_utc = some t' → ¬ t' < ctx.sinceEpoch →
       sanitizeText cd.body ≠ "" →
       kwBlocks ctx.keyword (sanitizeText cd.body) = false →
       mkCommentSentiment ctx cd t' ∈
         (children.foldl (processChild ctx) st).commentSentiments) ∧
    (∀ (env : ServeEnv) (p : RefreshPayload) (s' : Store)
       (result : ProcessResult) (tok : String),
       env.payload = some p →
       timeframeSupported (p.timeframe.getD "7d") = true →
       env.supabaseConfigured = true →
       fetchRedditAccessToken env.creds = Except.ok tok →
       processRefresh env.run (p.timeframe.getD "7d")
         (normalizeKeyword p.keyword) env.store = Except.ok (s', result) →
       (serveHandler env).recordedStatus ≠ some "failed" ∧
       (serveHandler env).httpStatus = 200) := by
  refine ⟨?_, ?_, ?_, ?_⟩
  · intro ctx st children child data t msg hmem hdata hkind hstick hrem ht hwin hkw henv
    obtain ⟨l1, l2, rfl⟩ := List.append_of_mem hmem
    rw [List.foldl_append, List.foldl_cons, foldl_children_errors,
      processChild_errors]
    have hseg : errSeg ctx child = [commentFetchWarning ctx data.id msg] := by
      unfold errSeg
      rw [hdata]
      simp only [hkind, ht]
      rw [if_neg (by simp)]
      simp [hstick, hrem, hwin, hkw, henv]
    rw [hseg]
    simp
  · intro ctx env' st children
    rw [foldl_children_postSentiments, foldl_children_postSentiments]
  · intro ctx st children child data t cs cc cd t' hmem hdata hkind hstick
      hrem ht hwin hkw henv hccmem hkind' hdata' ht' hwin' hbody hkw'
    obtain ⟨l1, l2, rfl⟩ := List.append_of_mem hmem
    rw [List.foldl_append, List.foldl_cons, foldl_children_commentSentiments,
      processChild_commentSentiments]
    have hseg : childCommentSentSeg ctx child = (cs.map (commentSentSeg ctx)).flatten := by
      unfold childCommentSentSeg
      rw [hdata]
      simp only [hkind, ht]
      rw [if_neg (by simp)]
      simp [hstick, hrem, hwin, hkw, henv]
    have hcseg : commentSentSeg ctx cc = [mkCommentSentiment ctx cd t'] := by
      unfold commentSentSeg
      rw [if_neg (by simp [hkind']), hdata']
      simp only [ht']
      simp [hwin', hbody, hkw']
    have hin : mkCommentSentiment ctx cd t' ∈ (cs.map (commentSentSeg ctx)).flatten := by
      refine List.mem_flatten.mpr ⟨[mkCommentSentiment ctx cd t'], ?_, by simp⟩
      exact List.mem_map.mpr ⟨cc, hccmem, hcseg⟩
    rw [hseg]
    simp [hin]
  · intro env p s' result tok hp htf hsb htok hrun
    unfold serveHandler
    rw [hp]
    simp only [htf, hsb, htok, hrun]
    constructor
    · simp
    · simp

/-- Witness for C2 on the three-post batch with the middle post's comment
fetch throwing. -/
theorem claim_C2_comment_fetch_partial_failure_witness :
    commentFetchWarning ctxC2 "p2" "boom" ∈
      (childrenC2.foldl (processChild ctxC2) emptySubState).errors ∧
    (childrenC2.foldl
        (processChild { ctxC2 with commentsEnv := fun _ => Except.ok [] })
        emptySubState).postSentiments =
      (childrenC2.foldl (processChild ctxC2) emptySubState).postSentiments ∧
    mkCommentSentiment ctxC2 (commentAt 150) 150 ∈
      (childrenC2.foldl (processChild ctxC2) emptySubState).commentSentiments ∧
    ((serveHandler envWarn).recordedStatus ≠ some "failed" ∧
     (serveHandler envWarn).httpStatus = 200) := by
  refine ⟨?_, ?_, ?_, ?_⟩
  · exact claim_C2_comment_fetch_partial_failure.1 ctxC2 emptySubState
      childrenC2 (childIdAt "p2" 200) (postIdAt "p2" 200) 200 "boom"
      (by decide) rfl rfl rfl rfl rfl (by decide) rfl rfl
  · exact claim_C2_comment_fetch_partial_failure.2.1 ctxC2
      (fun _ => Except.ok []) emptySubState childrenC2
  · exact claim_C2_comment_fetch_partial_failure.2.2.1 ctxC2 emptySubState
      childrenC2 (childIdAt "p1" 200) (postIdAt "p1" 200) 200
      [cchildAt 150] (cchildAt 150) (commentAt 150) 150
      (by decide) rfl rfl rfl rfl rfl (by decide) rfl rfl (by decide) rfl rfl
      rfl (by decide) (by decide) rfl
  · exact claim_C2_comment_fetch_partial_failure.2.2.2 envWarn
      { timeframe := some "7d", keyword := none } c1pair.1 c1pair.2 "tok"
      rfl rfl rfl rfl rfl

/-! ## Idempotence of the persistence flush (C3) -/

/-- Pointwise-equal predicates give equal `any`. -/
theorem anyCongr {α : Type} {l : List α} {p q : α → Bool}
    (h : ∀ a ∈ l, p a = q a) : l.any p = l.any q := by
  induction l with
  | nil => rfl
  | cons a l ih =>
    simp only [List.any_cons, h a (by simp),
      ih (fun x hx => h x (by simp [hx]))]

/-- The guarded posts upsert is just the fold. -/
theorem upsertPostsStage_eq (ds : List PostRecordDraft) (t : List PostRow × ℕ) :
    upsertPostsStage ds t = ds.foldl applyPostDraft t := by
  cases ds with
  | nil => rfl
  | cons d ds => simp [upsertPostsStage]

/-- The guarded comments upsert is just the fold. -/
theorem upsertCommentsStage_eq (rows : List CommentInsert) (t : List CommentRow × ℕ) :
    upsertCommentsStage rows t = rows.foldl applyCommentDraft t := by
  cases rows with
  | nil => rfl
  | cons d ds => simp [upsertCommentsStage]

/-- A key present before a post upsert step is present after it. -/
theorem applyPostDraft_key_mono (acc : List PostRow × ℕ) (d : PostRecordDraft)
    (k : String) (h : acc.1.any (fun r => r.reddit_id = k) = true) :
    (applyPostDraft acc d).1.any (fun r => r.reddit_id = k) = true := by
  unfold applyPostDraft
  split
  · simp only
    rw [List.any_map]
    rw [anyCongr (q := fun r => r.reddit_id = k) (by
      intro r _
      by_cases hc : r.reddit_id = d.reddit_id <;> simp [hc])]
    exact h
  · simp only [List.any_append, h, Bool.true_or]

/-- A post upsert step establishes its own key. -/
theorem applyPostDraft_key_self (acc : List PostRow × ℕ) (d : PostRecordDraft) :
    (applyPostDraft acc d).1.any (fun r => r.reddit_id = d.reddit_id) = true := by
  unfold applyPostDraft
  split
  · next hc =>
    simp only
    rw [List.any_map]
    rw [anyCongr (q := fun r => r.reddit_id = d.reddit_id) (by
      intro r _
      by_cases hrc : r.reddit_id = d.reddit_id <;> simp [hrc])]
    exact hc
  · simp

/-- A present key survives folding any post draft list. -/
theorem foldl_applyPostDraft_key_mono (ds : List PostRecordDraft) :
    ∀ (t : List PostRow × ℕ) (k : String),
      t.1.any (fun r => r.reddit_id = k) = true →
      ((ds.foldl applyPostDraft t).1.any (fun r => r.reddit_id = k)) = true := by
  induction ds with
  | nil => intro t k h; exact h
  | cons d ds ih =>
    intro t k h
    rw [List.foldl_cons]
    exact ih _ _ (applyPostDraft_key_mono _ _ _ h)

/-- After folding a post draft list, every draft's key is present. -/
theorem foldl_applyPostDraft_keys (ds : List PostRecordDraft) :
    ∀ (t : List PostRow × ℕ) (d : PostRecordDraft), d ∈ ds →
      ((ds.foldl applyPostDraft t).1.any (fun r => r.reddit_id = d.reddit_id)) = true := by
  induction ds with
  | nil => intro t d h; cases h
  | cons d0 ds ih =>
    intro t d hd
    rcases List.mem_cons.mp hd with rfl | hd
    · rw [List.foldl_cons]
      exact foldl_applyPostDraft_key_mono ds _ _ (applyPostDraft_key_self t d)
    · exact ih _ _ hd

/-- A post upsert step on a present key preserves the key/id projection and
the id counter. -/
theorem applyPostDraft_proj (acc : List PostRow × ℕ) (d : PostRecordDraft)
    (h : acc.1.any (fun r => r.reddit_id = d.reddit_id) = true) :
    projPosts (applyPostDraft acc d).1 = projPosts acc.1 ∧
      (applyPostDraft acc d).2 = acc.2 := by
  unfold applyPostDraft
  rw [if_pos h]
  constructor
  · unfold projPosts
    rw [List.map_map]
    refine List.map_congr_left ?_
    intro r _
    by_cases hc : r.reddit_id = d.reddit_id <;> simp [hc]
  · rfl

/-- Key presence is determined by the key/id projection. -/
theorem any_key_eq_proj (rows : List PostRow) (k : String) :
    rows.any (fun r => r.reddit_id = k) =
      (projPosts rows).any (fun p => p.1 = k) := by
  unfold projPosts
  induction rows with
  | nil => rfl
  | cons r rows ih => simp [List.any_cons, ih]

/-- When every draft key is already present, re-folding the post drafts
changes neither the key/id projection nor the counter. -/
theorem foldl_applyPostDraft_proj (ds : List PostRecordDraft) :
    ∀ (t : List PostRow × ℕ),
      (∀ d ∈ ds, t.1.any (fun r => r.reddit_id = d.reddit_id) = true) →
      projPosts (ds.foldl applyPostDraft t).1 = projPosts t.1 ∧
        (ds.foldl applyPostDraft t).2 = t.2 := by
  induction ds with
  | nil => intro t _; exact ⟨rfl, rfl⟩
  | cons d ds ih =>
    intro t hkeys
    rw [List.foldl_cons]
    have h0 := hkeys d (by simp)
    have hstep := applyPostDraft_proj t d h0
    have hrest : ∀ d' ∈ ds, ((applyPostDraft t d).1.any
        (fun r => r.reddit_id = d'.reddit_id)) = true := by
      intro d' hd'
      rw [any_key_eq_proj, hstep.1, ← any_key_eq_proj]
      exact hkeys d' (by simp [hd'])
    obtain ⟨hproj, hcnt⟩ := ih (applyPostDraft t d) hrest
    exact ⟨hproj.trans hstep.1, hcnt.trans hstep.2⟩

/-- A key present before a comment upsert step is present after it. -/
theorem applyCommentDraft_key_mono (acc : List CommentRow × ℕ)
    (d : CommentInsert) (k : String)
    (h : acc.1.any (fun r => r.reddit_id = k) = true) :
    (applyCommentDraft acc d).1.any (fun r => r.reddit_id = k) = true := by
  unfold applyCommentDraft
  split
  · simp only
    rw [List.any_map]
    rw [anyCongr (q := fun r => r.reddit_id = k) (by
      intro r _
      by_cases hc : r.reddit_id = d.reddit_id <;> simp [hc])]
    exact h
  · simp only [List.any_append, h, Bool.true_or]

/-- A comment upsert step establishes its own key. -/
theorem applyCommentDraft_key_self (acc : List CommentRow × ℕ)
    (d : CommentInsert) :
    (applyCommentDraft acc d).1.any (fun r => r.reddit_id = d.reddit_id) = true := by
  unfold applyCommentDraft
  split
  · next hc =>
    simp only
    rw [List.any_map]
    rw [anyCongr (q := fun r => r.reddit_id = d.reddit_id) (by
      intro r _
      by_cases hrc : r.reddit_id = d.reddit_id <;> simp [hrc])]
    exact hc
  · simp

/-- A present key survives folding any comment row list. -/
theorem foldl_applyCommentDraft_key_mono (ds : List CommentInsert) :
    ∀ (t : List CommentRow × ℕ) (k : String),
      t.1.any (fun r => r.reddit_id = k) = true →
      ((ds.foldl applyCommentDraft t).1.any (fun r => r.reddit_id = k)) = true := by
  induction ds with
  | nil => intro t k h; exact h
  | cons d ds ih =>
    intro t k h
    rw [List.foldl_cons]
    exact ih _ _ (applyCommentDraft_key_mono _ _ _ h)

/-- After folding a comment row list, every row's key is present. -/
theorem foldl_applyCommentDraft_keys (ds : List CommentInsert) :
    ∀ (t : List CommentRow × ℕ) (d : CommentInsert), d ∈ ds →
      ((ds.foldl applyCommentDraft t).1.any (fun r => r.reddit_id = d.reddit_id)) = true := by
  induction ds with
  | nil => intro t d h; cases h
  | cons d0 ds ih =>
    intro t d hd
    rcases List.mem_cons.mp hd with rfl | hd
    · rw [List.foldl_cons]
      exact foldl_applyCommentDraft_key_mono ds _ _ (applyCommentDraft_key_self t d)
    · exact ih _ _ hd

/-- A comment upsert step on a present key preserves the key/id projection
and the id counter. -/
theorem applyCommentDraft_proj (acc : List CommentRow × ℕ) (d : CommentInsert)
    (h : acc.1.any (fun r => r.reddit_id = d.reddit_id) = true) :
    projComments (applyCommentDraft acc d).1 = projComments acc.1 ∧
      (applyCommentDraft acc d).2 = acc.2 := by
  unfold applyCommentDraft
  rw [if_pos h]
  constructor
  · unfold projComments
    rw [List.map_map]
    refine List.map_congr_left ?_
    intro r _
    by_cases hc : r.reddit_id = d.reddit_id <;> simp [hc]
  · rfl

/-- Comment key presence is determined by the key/id projection. -/
theorem any_ckey_eq_proj (rows : List CommentRow) (k : String) :
    rows.any (fun r => r.reddit_id = k) =
      (projComments rows).any (fun p => p.1 = k) := by
  unfold projComments
  induction rows with
  | nil => rfl
  | cons r rows ih => simp [List.any_cons, ih]

/-- When every row key is already present, re-folding the comment rows
changes neither the key/id projection nor the counter. -/
theorem foldl_applyCommentDraft_proj (ds : List CommentInsert) :
    ∀ (t : List CommentRow × ℕ),
      (∀ d ∈ ds, t.1.any (fun r => r.reddit_id = d.reddit_id) = true) →
      projComments (ds.foldl applyCommentDraft t).1 = projComments t.1 ∧
        (ds.foldl applyCommentDraft t).2 = t.2 := by
  induction ds with
  | nil => intro t _; exact ⟨rfl, rfl⟩
  | cons d ds ih =>
    intro t hkeys
    rw [List.foldl_cons]
    have h0 := hkeys d (by simp)
    have hstep := applyCommentDraft_proj t d h0
    have hrest : ∀ d' ∈ ds, ((applyCommentDraft t d).1.any
        (fun r => r.reddit_id = d'.reddit_id)) = true := by
      intro d' hd'
      rw [any_ckey_eq_proj, hstep.1, ← any_ckey_eq_proj]
      exact hkeys d' (by simp [hd'])
    obtain ⟨hproj, hcnt⟩ := ih (applyCommentDraft t d) hrest
    exact ⟨hproj.trans hstep.1, hcnt.trans hstep.2⟩

/-- The reload pairs are determined by the key/id projection (posts). -/
theorem selectPostPairs_eq_proj (rows : List PostRow) (ids : List String) :
    selectPostPairs rows ids =
      (projPosts rows).filter (fun p => decide (p.1 ∈ ids)) := by
  unfold selectPostPairs projPosts
  induction rows with
  | nil => rfl
  | cons r rows ih =>
    by_cases hm : r.reddit_id ∈ ids <;>
      simp [List.filter_cons, hm, ih]

/-- The reload pairs are determined by the key/id projection (comments). -/
theorem selectCommentPairs_eq_proj (rows : List CommentRow) (ids : List String) :
    selectCommentPairs rows ids =
      (projComments rows).filter (fun p => decide (p.1 ∈ ids)) := by
  unfold selectCommentPairs projComments
  induction rows with
  | nil => rfl
  | cons r rows ih =>
    by_cases hm : r.reddit_id ∈ ids <;>
      simp [List.filter_cons, hm, ih]

/-- The guarded post-sentiment delete is a plain filter (an empty id set
deletes nothing either way). -/
theorem deleteSentimentsByPost_eq (pSet : List ℕ) (rows : List SentimentRow) :
    deleteSentimentsByPost pSet rows =
      rows.filter (fun r => ! sentimentHitsPostSet pSet r) := by
  cases pSet with
  | nil =>
    unfold deleteSentimentsByPost
    simp only [List.length_nil, gt_iff_lt, lt_self_iff_false, if_false]
    refine (List.filter_eq_self.mpr ?_).symm
    intro r _
    unfold sentimentHitsPostSet
    cases r.post_id <;> simp
  | cons p ps => simp [deleteSentimentsByPost]

/-- The guarded comment-sentiment delete is a plain filter. -/
theorem deleteSentimentsByComment_eq (cSet : List ℕ) (rows : List SentimentRow) :
    deleteSentimentsByComment cSet rows =
      rows.filter (fun r => ! sentimentHitsCommentSet cSet r) := by
  cases cSet with
  | nil =>
    unfold deleteSentimentsByComment
    simp only [List.length_nil, gt_iff_lt, lt_self_iff_false, if_false]
    refine (List.filter_eq_self.mpr ?_).symm
    intro r _
    unfold sentimentHitsCommentSet
    cases r.comment_id <;> simp
  | cons p ps => simp [deleteSentimentsByComment]

/-- Every re-keyed post sentiment row has a post id and no comment id. -/
theorem rekeyPostSentiments_shape (m : String → Option ℕ)
    (ds : List PostSentimentDraft) (r : SentimentRow)
    (h : r ∈ rekeyPostSentiments m ds) :
    (∃ pid, r.post_id = some pid) ∧ r.comment_id = none := by
  rcases List.mem_filterMap.mp h with ⟨d, _, hd⟩
  cases hm : m d.reddit_id with
  | none => rw [hm] at hd; cases hd
  | some pid =>
    rw [hm] at hd
    cases hd
    exact ⟨⟨pid, rfl⟩, rfl⟩

/-- Every re-keyed comment sentiment row has a comment id and no post id. -/
theorem rekeyCommentSentiments_shape (m : String → Option ℕ)
    (ds : List CommentSentimentDraft) (r : SentimentRow)
    (h : r ∈ rekeyCommentSentiments m ds) :
    r.post_id = none ∧ ∃ cid, r.comment_id = some cid := by
  rcases List.mem_filterMap.mp h with ⟨d, _, hd⟩
  cases hm : m d.reddit_id with
  | none => rw [hm] at hd; cases hd
  | some cid =>
    rw [hm] at hd
    cases hd
    exact ⟨rfl, ⟨cid, rfl⟩⟩

/-- Every re-keyed post sentiment row is hit by its own cleanup set. -/
theorem rekeyPostSentiments_hits (m : String → Option ℕ)
    (ds : List PostSentimentDraft) (r : SentimentRow)
    (h : r ∈ rekeyPostSentiments m ds) :
    sentimentHitsPostSet
      (uniqueList ((rekeyPostSentiments m ds).filterMap (fun x => x.post_id))) r = true := by
  obtain ⟨⟨pid, hpid⟩, -⟩ := rekeyPostSentiments_shape m ds r h
  unfold sentimentHitsPostSet
  rw [hpid]
  simp only [decide_eq_true_eq]
  unfold uniqueList
  exact List.mem_dedup.mpr (List.mem_filterMap.mpr ⟨r, h, by rw [hpid]⟩)

/-- Every re-keyed comment sentiment row is hit by its own cleanup set. -/
theorem rekeyCommentSentiments_hits (m : String → Option ℕ)
    (ds : List CommentSentimentDraft) (r : SentimentRow)
    (h : r ∈ rekeyCommentSentiments m ds) :
    sentimentHitsCommentSet
      (uniqueList ((rekeyCommentSentiments m ds).filterMap (fun x => x.comment_id))) r = true := by
  obtain ⟨-, ⟨cid, hcid⟩⟩ := rekeyCommentSentiments_shape m ds r h
  unfold sentimentHitsCommentSet
  rw [hcid]
  simp only [decide_eq_true_eq]
  unfold uniqueList
  exact List.mem_dedup.mpr (List.mem_filterMap.mpr ⟨r, h, by rw [hcid]⟩)

/-- A row with no post id is never hit by a post-id delete. -/
theorem sentimentHitsPostSet_none (pSet : List ℕ) (r : SentimentRow)
    (h : r.post_id = none) : sentimentHitsPostSet pSet r = false := by
  unfold sentimentHitsPostSet
  rw [h]

/-- A row with no comment id is never hit by a comment-id delete. -/
theorem sentimentHitsCommentSet_none (cSet : List ℕ) (r : SentimentRow)
    (h : r.comment_id = none) : sentimentHitsCommentSet cSet r = false := by
  unfold sentimentHitsCommentSet
  rw [h]

/-- Replacing a value in place leaves the key list unchanged. -/
theorem map_fst_ite_replace (m : AggMap) (key : String × Int)
    (v : AggregateRow) :
    (m.map (fun kv => if kv.1 = key then (key, v) else kv)).map
        (fun kv => kv.1) =
      m.map (fun kv => kv.1) := by
  rw [List.map_map]
  refine List.map_congr_left ?_
  intro kv _
  by_cases h : kv.1 = key <;> simp [h]

/-- One `updateAggregate` call with the run's timeframe preserves the
aggregate map's well-formedness. -/
theorem updateAggregate_WF {tf : String} {m : AggMap} {u : UpdateArgs}
    (hm : AggWF tf m) (hu : u.timeframe = tf) :
    AggWF tf (updateAggregate m u) := by
  obtain ⟨hnd, hprop⟩ := hm
  unfold updateAggregate aggSet
  cases hget : aggGet m (u.subredditId, bucketOf u.timestamp) with
  | some r =>
    obtain ⟨h1, h2, h3⟩ := hprop _ (aggGet_mem hget)
    simp only at h1 h2 h3
    have hany : m.any (fun kv => kv.1 = (u.subredditId, bucketOf u.timestamp)) = true :=
      List.any_eq_true.mpr ⟨_, aggGet_mem hget, by simp⟩
    simp only [hget, hany]
    rw [if_pos trivial]
    constructor
    · rw [map_fst_ite_replace]
      exact hnd
    · intro kv hkv
      rcases List.mem_map.mp hkv with ⟨kv0, hkv0, heq⟩
      by_cases hk : kv0.1 = (u.subredditId, bucketOf u.timestamp)
      · rw [if_pos hk] at heq
        subst heq
        cases u.label <;> simp [h1, h2, h3]
      · rw [if_neg hk] at heq
        subst heq
        exact hprop _ hkv0
  | none =>
    have hnone : ∀ kv ∈ m, ¬ kv.1 = (u.subredditId, bucketOf u.timestamp) := by
      intro kv hkv
      unfold aggGet at hget
      cases hf : m.find? (fun kv => kv.1 = (u.subredditId, bucketOf u.timestamp)) with
      | some kv' => rw [hf] at hget; cases hget
      | none =>
        have := List.find?_eq_none.mp hf kv hkv
        simpa using this
    have hany : m.any (fun kv => kv.1 = (u.subredditId, bucketOf u.timestamp)) = false := by
      rcases hb : m.any (fun kv => kv.1 = (u.subredditId, bucketOf u.timestamp)) with _ | _
      · rfl
      · exfalso
        rcases List.any_eq_true.mp hb with ⟨kv, hkv, hkv1⟩
        exact hnone kv hkv (by simpa using hkv1)
    simp only [hget, hany]
    rw [if_neg (by simp)]
    constructor
    · rw [List.map_append]
      rw [List.nodup_append]
      refine ⟨hnd, by simp, ?_⟩
      intro k hk hk'
      simp only [List.map_cons, List.map_nil, List.mem_singleton] at hk'
      subst hk'
      rcases List.mem_map.mp hk with ⟨kv, hkv, hkveq⟩
      exact hnone kv hkv hkveq
    · intro kv hkv
      rcases List.mem_append.mp hkv with h | h
      · exact hprop _ h
      · simp only [List.mem_singleton] at h
        subst h
        cases u.label <;> simp [hu]

/-- A comment-child step preserves aggregate well-formedness. -/
theorem pcc_AggWF {tf : String} (ctx : SubCtx) (pid : String) (st : SubState)
    (cc : CommentChild) (htf : ctx.timeframe = tf)
    (h : AggWF tf st.aggregates) :
    AggWF tf (processCommentChild ctx pid st cc).aggregates := by
  unfold processCommentChild
  dsimp only
  repeat' split
  all_goals first
    | exact h
    | exact updateAggregate_WF h htf

/-- A whole comment pass preserves aggregate well-formedness. -/
theorem foldl_pcc_AggWF {tf : String} (ctx : SubCtx) (pid : String)
    (cs : List CommentChild) (htf : ctx.timeframe = tf) :
    ∀ st : SubState, AggWF tf st.aggregates →
      AggWF tf ((cs.foldl (processCommentChild ctx pid) st)).aggregates := by
  induction cs with
  | nil => intro st h; exact h
  | cons c cs ih =>
    intro st h
    rw [List.foldl_cons]
    exact ih _ (pcc_AggWF ctx pid st c htf h)

/-- A listing-child step preserves aggregate well-formedness. -/
theorem processChild_AggWF {tf : String} (ctx : SubCtx) (st : SubState)
    (child : RedditChild) (htf : ctx.timeframe = tf)
    (h : AggWF tf st.aggregates) :
    AggWF tf (processChild ctx st child).aggregates := by
  unfold processChild
  dsimp only
  repeat' split
  all_goals first
    | exact h
    | exact updateAggregate_WF h htf
    | exact foldl_pcc_AggWF ctx _ _ htf _ h
    | exact foldl_pcc_AggWF ctx _ _ htf _ (updateAggregate_WF h htf)

/-- A whole community pass preserves aggregate well-formedness. -/
theorem processSubreddit_AggWF {tf : String} (ctx : SubCtx) (st : SubState)
    (listing : Except String (List RedditChild)) (htf : ctx.timeframe = tf)
    (h : AggWF tf st.aggregates) :
    AggWF tf (processSubreddit ctx st listing).aggregates := by
  cases listing with
  | error msg => exact h
  | ok children =>
    show AggWF tf (children.foldl (processChild ctx) st).aggregates
    induction children generalizing st with
    | nil => exact h
    | cons c cs ih =>
      rw [List.foldl_cons]
      exact ih _ (processChild_AggWF ctx st c htf h)

/-- The aggregate map accumulated by a whole run is well-formed for the
run's timeframe. -/
theorem collectDrafts_AggWF (env : RunEnv) (timeframe : String)
    (sinceEpoch : Int) (keyword : Option String) (subs : List SubredditRow) :
    AggWF timeframe (collectDrafts env timeframe sinceEpoch keyword subs).aggregates := by
  unfold collectDrafts
  suffices H : ∀ (subs : List SubredditRow) (st0 : SubState),
      AggWF timeframe st0.aggregates →
      AggWF timeframe ((subs.foldl (fun st sub =>
        processSubreddit (mkCtx env timeframe sinceEpoch keyword sub) st
          (env.listing sub.name)) st0)).aggregates by
    refine H subs emptySubState ?_
    exact ⟨List.nodup_nil, by intro kv hkv; cases hkv⟩
  intro subs
  induction subs with
  | nil => intro st0 h; exact h
  | cons sub subs ih =>
    intro st0 h
    rw [List.foldl_cons]
    exact ih _ (processSubreddit_AggWF _ _ _ rfl h)

/-- Upserting rows none of which match the base (nor each other) appends
them. -/
theorem foldl_applyAggRow_append (A : List AggregateRow) :
    ∀ base : List AggregateRow,
      (∀ r ∈ A, base.any (fun x => aggKeyMatches x r) = false) →
      A.Pairwise (fun r r' => aggKeyMatches r r' = false) →
      A.foldl applyAggRow base = base ++ A := by
  induction A with
  | nil => intro base _ _; simp
  | cons r A ih =>
    intro base hnm hpw
    rw [List.foldl_cons]
    have hstep : applyAggRow base r = base ++ [r] := by
      unfold applyAggRow
      rw [if_neg (by simp [hnm r (by simp)])]
    rw [hstep]
    rw [ih (base ++ [r]) ?_ (List.Pairwise.sublist (by simp) hpw)]
    · simp
    · intro r' hr'
      rw [List.any_append]
      have h1 : base.any (fun x => aggKeyMatches x r') = false :=
        hnm r' (by simp [hr'])
      have h2 : aggKeyMatches r r' = false :=
        (List.pairwise_cons.mp hpw).1 r' hr'
      simp [h1, h2]

/-- The value list of a well-formed aggregate map has the run's timeframe
on every row and pairwise distinct natural keys. -/
theorem AggWF_values {tf : String} {m : AggMap} (hwf : AggWF tf m) :
    (∀ r ∈ m.map (fun kv => kv.2), r.timeframe = tf) ∧
      (m.map (fun kv => kv.2)).Pairwise (fun r r' => aggKeyMatches r r' = false) := by
  obtain ⟨hnd, hprop⟩ := hwf
  constructor
  · intro r hr
    rcases List.mem_map.mp hr with ⟨kv, hkv, rfl⟩
    exact (hprop kv hkv).2.2
  · rw [List.pairwise_map]
    have hp1 : m.Pairwise (fun kv kv' => kv.1 ≠ kv'.1) :=
      List.pairwise_map.mp hnd
    refine List.Pairwise.imp_of_mem ?_ hp1
    intro kv kv' hkv hkv' hne
    obtain ⟨ha1, ha2, _⟩ := hprop kv hkv
    obtain ⟨hb1, hb2, _⟩ := hprop kv' hkv'
    unfold aggKeyMatches
    rcases hb : (decide (kv.2.subreddit_id = kv'.2.subreddit_id) &&
        decide (kv.2.timeframe = kv'.2.timeframe) &&
        decide (kv.2.bucket_start = kv'.2.bucket_start)) with _ | _
    · rfl
    · exfalso
      simp only [Bool.and_eq_true, decide_eq_true_eq] at hb
      apply hne
      have : kv.1 = (kv.2.subreddit_id, kv.2.bucket_start) := by
        rw [ha1, ha2]
      rw [this, hb.1.1, hb.2, hb1, hb2]

/-- Replacing the same aggregate rows twice is the same as replacing them
once. -/
theorem replaceAggregates_idem (tf : String) (A d0 : List AggregateRow)
    (htf : ∀ r ∈ A, r.timeframe = tf)
    (hpw : A.Pairwise (fun r r' => aggKeyMatches r r' = false)) :
    replaceAggregates tf A (replaceAggregates tf A d0) =
      replaceAggregates tf A d0 := by
  cases hA : A with
  | nil => rfl
  | cons a0 A0 =>
    rw [← hA]
    have hlen : A.length > 0 := by rw [hA]; simp
    have htouched : ∀ r ∈ A, decide (r.subreddit_id ∈
        uniqueList (A.map (fun x => x.subreddit_id))) = true := by
      intro r hr
      simp only [decide_eq_true_eq]
      unfold uniqueList
      exact List.mem_dedup.mpr (List.mem_map.mpr ⟨r, hr, rfl⟩)
    have hpredA : ∀ r ∈ A, (! (r.timeframe = tf && decide (r.subreddit_id ∈
        uniqueList (A.map (fun x => x.subreddit_id))))) = false := by
      intro r hr
      simp [htf r hr, htouched r hr]
    have hnm : ∀ (d : List AggregateRow) (r : AggregateRow), r ∈ A →
        ((d.filter (fun x => ! (x.timeframe = tf && decide (x.subreddit_id ∈
          uniqueList (A.map (fun y => y.subreddit_id)))))).any
            (fun x => aggKeyMatches x r)) = false := by
      intro d r hr
      rcases hb : (d.filter _).any (fun x => aggKeyMatches x r) with _ | _
      · rfl
      · exfalso
        rcases List.any_eq_true.mp hb with ⟨x, hx, hxm⟩
        have hxf := List.of_mem_filter hx
        have hxm' : aggKeyMatches x r = true := by simpa using hxm
        unfold aggKeyMatches at hxm'
        simp only [Bool.and_eq_true, decide_eq_true_eq] at hxm'
        have hxtf : x.timeframe = tf := hxm'.1.2.trans (htf r hr)
        have hxsub : decide (x.subreddit_id ∈
            uniqueList (A.map (fun y => y.subreddit_id))) = true := by
          simp only [decide_eq_true_eq]
          rw [hxm'.1.1]
          simpa using htouched r hr
        rw [hxtf, hxsub] at hxf
        simp at hxf
    unfold replaceAggregates
    rw [if_pos hlen, if_pos hlen]
    dsimp only
    have h1 : A.foldl applyAggRow (d0.filter (fun r =>
        ! (r.timeframe = tf && decide (r.subreddit_id ∈
          uniqueList (A.map (fun y => y.subreddit_id)))))) =
        (d0.filter (fun r => ! (r.timeframe = tf && decide (r.subreddit_id ∈
          uniqueList (A.map (fun y => y.subreddit_id)))))) ++ A :=
      foldl_applyAggRow_append A _ (hnm d0) hpw
    rw [h1]
    rw [List.filter_append]
    have hff : ((d0.filter (fun r => ! (r.timeframe = tf &&
        decide (r.subreddit_id ∈ uniqueList (A.map (fun y => y.subreddit_id)))))).filter
          (fun r => ! (r.timeframe = tf && decide (r.subreddit_id ∈
            uniqueList (A.map (fun y => y.subreddit_id)))))) =
        d0.filter (fun r => ! (r.timeframe = tf && decide (r.subreddit_id ∈
          uniqueList (A.map (fun y => y.subreddit_id))))) := by
      simp
    have hfA : A.filter (fun r => ! (r.timeframe = tf &&
        decide (r.subreddit_id ∈ uniqueList (A.map (fun y => y.subreddit_id))))) = [] := by
      refine List.filter_eq_nil_iff.mpr ?_
      intro r hr
      simp [hpredA r hr]
    rw [hff, hfA, List.append_nil]
    exact h1

/-- `flushDrafts` written out through the named stage values. -/
theorem flushDrafts_spec (tf : String) (D : SubState) (s : Store) :
    flushDrafts tf D s =
      ({ posts := (postsUpOf D s).1, nextPostId := (postsUpOf D s).2,
         comments := (commentsUpOf D s).1, nextCommentId := (commentsUpOf D s).2,
         sentiments :=
           deleteSentimentsByComment (cSetOf D s)
             (deleteSentimentsByPost (pSetOf D s) s.sentiments) ++
           pRowsOf D s ++ cRowsOf D s,
         daily := replaceAggregates tf (D.aggregates.map (fun kv => kv.2)) s.daily },
       { postsProcessed := D.postRecords.length,
         commentsProcessed := (commentRowsOf D s).length,
         sentimentsInserted := (pRowsOf D s).length + (cRowsOf D s).length,
         aggregatesUpserted := (D.aggregates.map (fun kv => kv.2)).length,
         errors := D.errors }) := rfl

/-- The id maps, re-keyed rows and cleanup sets of the second flush equal
those of the first. -/
theorem flush_second_run_stable (tf : String) (D : SubState) (s : Store) :
    postMapOf D (flushDrafts tf D s).1 = postMapOf D s ∧
    commentRowsOf D (flushDrafts tf D s).1 = commentRowsOf D s ∧
    commentMapOf D (flushDrafts tf D s).1 = commentMapOf D s ∧
    pRowsOf D (flushDrafts tf D s).1 = pRowsOf D s ∧
    cRowsOf D (flushDrafts tf D s).1 = cRowsOf D s := by
  have hs1posts : ((flushDrafts tf D s).1).posts = (postsUpOf D s).1 := rfl
  have hs1next : ((flushDrafts tf D s).1).nextPostId = (postsUpOf D s).2 := rfl
  have hkeys : ∀ d ∈ D.postRecords,
      ((postsUpOf D s).1.any (fun r => r.reddit_id = d.reddit_id)) = true := by
    intro d hd
    unfold postsUpOf
    rw [upsertPostsStage_eq]
    exact foldl_applyPostDraft_keys _ _ _ hd
  have hproj : projPosts (postsUpOf D (flushDrafts tf D s).1).1 =
      projPosts (postsUpOf D s).1 := by
    unfold postsUpOf
    rw [hs1posts, hs1next, upsertPostsStage_eq]
    exact (foldl_applyPostDraft_proj _ _ hkeys).1
  have hpmap : postMapOf D (flushDrafts tf D s).1 = postMapOf D s := by
    unfold postMapOf
    rw [selectPostPairs_eq_proj, hproj, ← selectPostPairs_eq_proj]
  have hcrows : commentRowsOf D (flushDrafts tf D s).1 = commentRowsOf D s := by
    unfold commentRowsOf
    rw [hpmap]
  have hs1comments : ((flushDrafts tf D s).1).comments = (commentsUpOf D s).1 := rfl
  have hs1cnext : ((flushDrafts tf D s).1).nextCommentId = (commentsUpOf D s).2 := rfl
  have hckeys : ∀ d ∈ commentRowsOf D s,
      ((commentsUpOf D s).1.any (fun r => r.reddit_id = d.reddit_id)) = true := by
    intro d hd
    unfold commentsUpOf
    rw [upsertCommentsStage_eq]
    exact foldl_applyCommentDraft_keys _ _ _ hd
  have hcproj : projComments (commentsUpOf D (flushDrafts tf D s).1).1 =
      projComments (commentsUpOf D s).1 := by
    unfold commentsUpOf
    rw [hcrows, hs1comments, hs1cnext, upsertCommentsStage_eq]
    exact (foldl_applyCommentDraft_proj _ _ hckeys).1
  have hcmap : commentMapOf D (flushDrafts tf D s).1 = commentMapOf D s := by
    unfold commentMapOf
    rw [selectCommentPairs_eq_proj, hcproj, ← selectCommentPairs_eq_proj, hcrows]
  refine ⟨hpmap, hcrows, hcmap, ?_, ?_⟩
  · unfold pRowsOf
    rw [hpmap]
  · unfold cRowsOf
    rw [hcmap]

/-- Running the flush twice with the same drafts leaves the daily
aggregates and the sentiment table of the first flush unchanged. -/
theorem flushDrafts_twice (tf : String) (D : SubState) (s0 : Store)
    (hwf : AggWF tf D.aggregates) :
    ((flushDrafts tf D (flushDrafts tf D s0).1).1).daily =
        ((flushDrafts tf D s0).1).daily ∧
      ((flushDrafts tf D (flushDrafts tf D s0).1).1).sentiments =
        ((flushDrafts tf D s0).1).sentiments := by
  obtain ⟨hpmap, hcrows, hcmap, hprows, hcrows'⟩ := flush_second_run_stable tf D s0
  have hpset : pSetOf D (flushDrafts tf D s0).1 = pSetOf D s0 := by
    unfold pSetOf
    rw [hprows]
  have hcset : cSetOf D (flushDrafts tf D s0).1 = cSetOf D s0 := by
    unfold cSetOf
    rw [hcrows']
  constructor
  · rw [flushDrafts_spec tf D (flushDrafts tf D s0).1, flushDrafts_spec tf D s0]
    simp only
    obtain ⟨htf, hpw⟩ := AggWF_values hwf
    exact replaceAggregates_idem tf _ s0.daily htf hpw
  · rw [flushDrafts_spec tf D (flushDrafts tf D s0).1]
    simp only
    rw [hpset, hcset, hprows, hcrows']
    have hs1sent : ((flushDrafts tf D s0).1).sentiments =
        deleteSentimentsByComment (cSetOf D s0)
          (deleteSentimentsByPost (pSetOf D s0) s0.sentiments) ++
        pRowsOf D s0 ++ cRowsOf D s0 := rfl
    rw [hs1sent]
    rw [deleteSentimentsByPost_eq, deleteSentimentsByComment_eq,
      deleteSentimentsByPost_eq, deleteSentimentsByComment_eq]
    set K := (s0.sentiments.filter
      (fun r => ! sentimentHitsPostSet (pSetOf D s0) r)).filter
        (fun r => ! sentimentHitsCommentSet (cSetOf D s0) r) with hK
    have hKp : K.filter (fun r => ! sentimentHitsPostSet (pSetOf D s0) r) = K := by
      rw [hK, List.filter_comm]
      simp
    have hPp : (pRowsOf D s0).filter
        (fun r => ! sentimentHitsPostSet (pSetOf D s0) r) = [] := by
      refine List.filter_eq_nil_iff.mpr ?_
      intro r hr
      have := rekeyPostSentiments_hits (postMapOf D s0) D.postSentiments r hr
      simp [pSetOf, pRowsOf] at this ⊢
      simp [this]
    have hCp : (cRowsOf D s0).filter
        (fun r => ! sentimentHitsPostSet (pSetOf D s0) r) = cRowsOf D s0 := by
      refine List.filter_eq_self.mpr ?_
      intro r hr
      have := (rekeyCommentSentiments_shape (commentMapOf D s0)
        D.commentSentiments r hr).1
      simp [sentimentHitsPostSet_none _ _ this]
    have hKc : K.filter (fun r => ! sentimentHitsCommentSet (cSetOf D s0) r) = K := by
      rw [hK]
      simp
    have hCc : (cRowsOf D s0).filter
        (fun r => ! sentimentHitsCommentSet (cSetOf D s0) r) = [] := by
      refine List.filter_eq_nil_iff.mpr ?_
      intro r hr
      have := rekeyCommentSentiments_hits (commentMapOf D s0)
        D.commentSentiments r hr
      simp [cSetOf, cRowsOf] at this ⊢
      simp [this]
    simp only [List.filter_append]
    rw [hKp, hPp, hCp, hKc, hCc]
    simp

/-- C3: running the pipeline twice in immediate succession against an
unchanged upstream data set is idempotent: the second run leaves the same
DailyAggregate rows and the same SentimentScore rows (hence the same count
per subject) as the first run. -/
theorem claim_C3_pipeline_idempotent (env : RunEnv) (timeframe : String)
    (keyword : Option String) (s0 s1 s2 : Store) (r1 r2 : ProcessResult)
    (h1 : processRefresh env timeframe keyword s0 = Except.ok (s1, r1))
    (h2 : processRefresh env timeframe keyword s1 = Except.ok (s2, r2)) :
    s2.daily = s1.daily ∧ s2.sentiments = s1.sentiments ∧
      ∀ p : SentimentRow → Bool,
        (s2.sentiments.filter p).length = (s1.sentiments.filter p).length := by
  unfold processRefresh at h1 h2
  cases hH : timeframeHours timeframe with
  | none => rw [hH] at h1; cases h1
  | some hours =>
    rw [hH] at h1 h2
    cases hsubs : env.subredditsLoad with
    | error msg =>
      rw [hsubs] at h1
      dsimp only at h1
      cases h1
    | ok subs =>
      rw [hsubs] at h1 h2
      dsimp only at h1 h2
      by_cases hlen : subs.length = 0
      · rw [if_pos hlen] at h1
        cases h1
      · rw [if_neg hlen] at h1 h2
        have e1 : (s1, r1) = flushDrafts timeframe
            (collectDrafts env timeframe (env.now - hours * 3600) keyword subs) s0 := by
          cases h1
          rfl
        have e2 : (s2, r2) = flushDrafts timeframe
            (collectDrafts env timeframe (env.now - hours * 3600) keyword subs) s1 := by
          cases h2
          rfl
        have hs1 : s1 = (flushDrafts timeframe
            (collectDrafts env timeframe (env.now - hours * 3600) keyword subs) s0).1 :=
          congrArg Prod.fst e1
        have hs2 : s2 = (flushDrafts timeframe
            (collectDrafts env timeframe (env.now - hours * 3600) keyword subs) s1).1 :=
          congrArg Prod.fst e2
        have hwf := collectDrafts_AggWF env timeframe (env.now - hours * 3600) keyword subs
        have main := flushDrafts_twice timeframe
          (collectDrafts env timeframe (env.now - hours * 3600) keyword subs) s0 hwf
        rw [hs2, hs1]
        refine ⟨main.1, main.2, ?_⟩
        intro p
        rw [main.2]

/-- Witness for C3: a one-community, one-post, one-comment environment run
twice from the empty store. -/
theorem claim_C3_pipeline_idempotent_witness :
    processRefresh runEnvC3 "24h" none store0 = Except.ok (c3s1, c3r1) ∧
    processRefresh runEnvC3 "24h" none c3s1 = Except.ok (c3s2, c3r2) ∧
    c3s2.daily = c3s1.daily ∧ c3s2.sentiments = c3s1.sentiments := by
  refine ⟨rfl, rfl, ?_, ?_⟩
  · exact (claim_C3_pipeline_idempotent runEnvC3 "24h" none store0 c3s1 c3s2
      c3r1 c3r2 rfl rfl).1
  · exact (claim_C3_pipeline_idempotent runEnvC3 "24h" none store0 c3s1 c3s2
      c3r1 c3r2 rfl rfl).2.1

end Codexometer
